import Mathlib

/-!
# FlashCamPLL: a shallow embedding of src/FlashCamPLL.cpp

Conventions of the embedding.

* A C float is a rational number. In the per-frame code (update and getGPUoffset) every
  float operation and every conversion of an integer to float is followed by f32, the
  rounding to the nearest binary32 value (24-bit significand, ties to even, gradual
  underflow); float fields are rounded when they are read, so that they enter the
  arithmetic as the binary32 values the program holds. Each operation is rounded on its
  own (float evaluation method 0, no contraction into a fused multiply-add). Overflow
  to infinity and NaN (a division by a period of 0) are not modelled. The
  multiplication by FPS_DENOMINATOR = 256 is exact in binary32 and carries no rounding.
* In start the float expressions are taken over exact rationals: what is stated about
  them is either stated in exact arithmetic or is a bound that rounding preserves.
* Unsigned machine integers are natural numbers reduced modulo 2^32 or 2^64 where the
  source computes them; signed 64-bit integers are integers brought back to
  [-2^63, 2^63) by wrapI64.
* A conversion from float to an integer type truncates toward zero. Where the truncated
  value does not fit the target type the C standard leaves the result open; the model
  then reduces it like the integer conversions do. Theorems that depend on such a
  conversion state the range they need.
* Hardware calls (wiringPi, the MMAL port) are recorded in order in a list of HwOp.
  Text written to stdout or stderr is not recorded.
* Clock readings are inputs: getGPUoffset reads the i-th sample of a stream, the
  calibration loop of start consumes a list of (before, after) pairs.
-/

namespace FlashCamPLL

/-! ## Machine arithmetic -/

/-- Number of values of an unsigned 32-bit integer. -/
def U32 : Nat := 2 ^ 32

/-- Number of values of an unsigned 64-bit integer. -/
def U64 : Nat := 2 ^ 64

/-- Truncation toward zero, the rounding of a C conversion from float to an integer. -/
def truncQ (q : ℚ) : Int := if 0 ≤ q then ⌊q⌋ else ⌈q⌉

/-- Integer to unsigned 32-bit conversion (reduction modulo 2^32). -/
def wrapU32 (z : Int) : Nat := (z % (U32 : Int)).toNat

/-- Integer to unsigned 64-bit conversion (reduction modulo 2^64). -/
def wrapU64 (z : Int) : Nat := (z % (U64 : Int)).toNat

/-- Integer to signed 64-bit conversion (two-complement reduction). -/
def wrapI64 (z : Int) : Int := (z + 2 ^ 63) % (U64 : Int) - 2 ^ 63

/-- Conversion float to unsigned int. -/
def toU32 (q : ℚ) : Nat := wrapU32 (truncQ q)

/-- Conversion float to uint64_t. -/
def toU64 (q : ℚ) : Nat := wrapU64 (truncQ q)

/-- Conversion float to int64_t. -/
def toI64 (q : ℚ) : Int := wrapI64 (truncQ q)

/-! ## Rounding to binary32 -/

/-- Position of the leading binary digit of n, counted down with the given bound on the
number of halvings. -/
def log2Fuel : Nat → Nat → Nat
  | 0, _ => 0
  | fuel + 1, n => if 2 ≤ n then log2Fuel fuel (n / 2) + 1 else 0

/-- Floor of the binary logarithm of n (0 for n = 0). -/
def ilog2 (n : Nat) : Nat := log2Fuel n n

/-- Binary exponent of a positive rational a: the integer e with 2^e <= a < 2^(e+1). -/
def expo2 (a : ℚ) : Int :=
  if (2 : ℚ) ^ ((ilog2 a.num.natAbs : Int) - (ilog2 a.den : Int)) ≤ a then
    (ilog2 a.num.natAbs : Int) - (ilog2 a.den : Int)
  else (ilog2 a.num.natAbs : Int) - (ilog2 a.den : Int) - 1

/-- Rounding to the nearest integer, ties to the even one. -/
def roundHalfEven (m : ℚ) : Int :=
  if m - (⌊m⌋ : ℚ) < 1 / 2 then ⌊m⌋
  else if 1 / 2 < m - (⌊m⌋ : ℚ) then ⌊m⌋ + 1
  else if ⌊m⌋ % 2 = 0 then ⌊m⌋ else ⌊m⌋ + 1

/-- Spacing of the binary32 values around a positive rational a: 2^(e - 23) for the
binary exponent e of a, and 2^(-149) below the smallest normal number 2^(-126). -/
def ulp32 (a : ℚ) : ℚ := (2 : ℚ) ^ (max (expo2 a) (-126) - 23)

/-- Rounding of a rational to the nearest binary32 value, ties to even. -/
def f32 (q : ℚ) : ℚ :=
  if q = 0 then 0
  else if 0 < q then (roundHalfEven (q / ulp32 q) : ℚ) * ulp32 q
  else -((roundHalfEven (-q / ulp32 (-q)) : ℚ) * ulp32 (-q))

/-! ## Constants of FlashCamPLL.cpp -/

def RPI_BASE_FREQ : Nat := 19200000
def PLL_PIN : Nat := 1
def RESET_PIN : Nat := 0
def FPS_DENOMINATOR : Nat := 256
/-- Default frame rate numerator, FlashCam_types.h line 64. -/
def VIDEO_FRAME_RATE_NUM : Nat := 30
/-- MMAL status code of a successful call. -/
def MMAL_SUCCESS : Nat := 0

/-! ## Data model -/

/-- The PLL fields of FLASHCAM_SETTINGS_T that FlashCamPLL.cpp reads or writes. -/
structure FLASHCAM_SETTINGS_T where
  verbose : Int
  pll_enabled : Nat
  pll_divider : Nat
  pll_offset : Int
  pll_pulsewidth : ℚ
  pll_starttime : Nat
  pll_startinterval : Nat
  pll_fpsfreq : ℚ
  pll_period : ℚ
  deriving DecidableEq

/-- The field of FLASHCAM_PARAMS_T that FlashCamPLL.cpp reads or writes. -/
structure FLASHCAM_PARAMS_T where
  framerate : ℚ
  deriving DecidableEq

/-- Member variables of a FlashCamPLL instance. -/
structure PLL where
  _error : Bool
  _active : Bool
  deriving DecidableEq

/-- A struct timespec as returned by clock_gettime(CLOCK_MONOTONIC). -/
structure Timespec where
  tv_sec : Nat
  tv_nsec : Nat
  deriving DecidableEq

/-- Hardware operations issued by the PLL, in the order of the calls. -/
inductive HwOp where
  | digitalWrite (pin value : Nat)
  | usleep (us : Nat)
  | pinModePwmOutput (pin : Nat)
  | pinModeOutput (pin : Nat)
  | pwmSetModeMS
  | pwmSetRange (range : Nat)
  | pwmWrite (pin value : Nat)
  | pwmSetClock (divisor : Nat)
  | frameRateSet (num den : Nat)
  deriving DecidableEq

/-- Microseconds of a timespec:
((uint64_t) t.tv_sec) * 1000000 + ((uint64_t) t.tv_nsec) / 1000. -/
def timespec_us (t : Timespec) : Nat :=
  ((t.tv_sec % U64) * 1000000 + (t.tv_nsec % U64) / 1000) % U64

/-- Unsigned 64-bit subtraction a - b. -/
def subU64 (a b : Nat) : Nat := (a + U64 - b % U64) % U64

/-! ## resetGPIO (lines 99-103) -/

/-- Hardware calls of one reset of the output line. -/
def resetGPIO : List HwOp :=
  [HwOp.digitalWrite RESET_PIN 1, HwOp.usleep 100, HwOp.digitalWrite RESET_PIN 0]

/-! ## getGPUoffset (lines 464-520) -/

/-- Function-static variables of getGPUoffset. -/
structure OffsetState where
  offset : Int
  offset_interval : Nat
  update : Int
  deriving DecidableEq

/-- Readings of one iteration of the sampling loop: local clock, remote clock value left
in t_gpu, local clock again. -/
structure GpuSample where
  cpu1 : Timespec
  t_gpu : Nat
  cpu2 : Timespec
  deriving DecidableEq

/-- The do-while loop of getGPUoffset (lines 486-498), started with the given count of
completed iterations; returns the final iter and the last readings
(t_gpu, t_cpu1, t_cpu2). The first argument bounds the remaining iterations; the loop
leaves by itself once iter exceeds max_iter, so max_iter is enough. -/
def offsetLoop (clk : Nat → GpuSample) (max_iter max_diff : Nat) :
    Nat → Nat → Nat × Nat × Nat × Nat
  | 0, iter =>
    let s := clk iter
    (iter + 1, s.t_gpu % U64, timespec_us s.cpu1, timespec_us s.cpu2)
  | fuel + 1, iter =>
    let s := clk iter
    let t_cpu1 := timespec_us s.cpu1
    let t_cpu2 := timespec_us s.cpu2
    let iter1 := iter + 1
    if subU64 t_cpu2 t_cpu1 > max_diff ∧ iter1 ≤ max_iter then
      offsetLoop clk max_iter max_diff fuel iter1
    else
      (iter1, s.t_gpu % U64, t_cpu1, t_cpu2)

/-- Result of getGPUoffset: the new static state, the returned offset and the interval
stored through the out-pointer. -/
structure OffsetResult where
  state : OffsetState
  offset : Int
  interval : Nat
  iter : Nat
  deriving DecidableEq

/-- FlashCamPLL::getGPUoffset(videoport, interval). The blend of lines 509-510 is
computed in binary32: rate = 0.1f, 1.0f - rate, the integer operands converted to float,
each product and the sum rounded, the result truncated by the assignment. -/
def getGPUoffset (est : OffsetState) (clk : Nat → GpuSample) : OffsetResult :=
  let max_diff : Nat := 150
  let rate : ℚ := f32 (1 / 10)
  let max_iter : Nat := if est.offset = 0 then 50 else 5
  let r := offsetLoop clk max_iter max_diff max_iter 0
  let iter := r.1
  let t_gpu := r.2.1
  let t_cpu1 := r.2.2.1
  let t_cpu2 := r.2.2.2
  let est1 : OffsetState :=
    if iter < max_iter then
      let d_offset : Int := wrapI64 (subU64 t_cpu1 t_gpu)
      let d_offset_interval : Int := wrapI64 (subU64 t_cpu2 t_cpu1)
      if est.offset = 0 then
        { est with offset := d_offset, offset_interval := wrapU64 d_offset_interval }
      else
        { est with
          offset := toI64 (f32 (f32 (f32 (1 - rate) * f32 (est.offset : ℚ)) +
            f32 (rate * f32 (d_offset : ℚ))))
          offset_interval := toU64 (f32 (f32 (f32 (1 - rate) * f32 (est.offset_interval : ℚ)) +
            f32 (rate * f32 (d_offset_interval : ℚ)))) }
    else est
  let est2 : OffsetState := { est1 with update := wrapI64 (est1.update + 1) }
  { state := est2, offset := est2.offset, interval := est2.offset_interval, iter := iter }

/-! ## update (lines 117-203) -/

/-- Values computed by lines 128-158 of update from the settings and the frame time in
the local clock domain. -/
structure PhaseStep where
  pll_fpsperiod : ℚ
  k : Nat
  t_lastpulse : Nat
  rawdiff : Int
  diff : Int
  updaterate : ℚ
  nframerate : ℚ
  deriving DecidableEq

/-- Lines 128-158 of update: pulse index, last pulse, folded phase error and the new
target frame rate, every float operation rounded to binary32. -/
def phaseStep (settings : FLASHCAM_SETTINGS_T) (t_frame_cpu : Nat) : PhaseStep :=
  let pll_fpsperiod : ℚ := f32 (f32 settings.pll_period / f32 (settings.pll_divider : ℚ))
  let k : Nat :=
    toU32 (f32 (f32 (subU64 t_frame_cpu settings.pll_starttime : ℚ) / pll_fpsperiod))
  let t_lastpulse : Nat :=
    (settings.pll_starttime % U64 + toU64 (f32 (f32 (k : ℚ) * pll_fpsperiod))) % U64
  let rawdiff : Int :=
    wrapI64 ((subU64 t_frame_cpu t_lastpulse : Int) + settings.pll_offset)
  let diff : Int :=
    if f32 ((wrapI64 (rawdiff * 2) : Int) : ℚ) > pll_fpsperiod then
      toI64 (f32 (f32 (rawdiff : ℚ) - pll_fpsperiod))
    else rawdiff
  let updaterate : ℚ := f32 (f32 settings.pll_fpsfreq / 4)
  let nframerate : ℚ :=
    f32 (f32 settings.pll_fpsfreq + f32 (updaterate * f32 (f32 (diff : ℚ) / pll_fpsperiod)))
  { pll_fpsperiod := pll_fpsperiod, k := k, t_lastpulse := t_lastpulse,
    rawdiff := rawdiff, diff := diff, updaterate := updaterate, nframerate := nframerate }

/-- Lines 119-125 of update: the frame time in the local clock domain,
buffertime + offset in unsigned 64-bit arithmetic, with the offset returned by
getGPUoffset. -/
def frameTimeCpu (est : OffsetState) (clk : Nat → GpuSample) (buffertime : Nat) : Nat :=
  wrapU64 ((buffertime : Int) + (getGPUoffset est clk).offset)

/-- Outcome of one call of update: the instance, the static state of the offset
estimator, the caller structures, the local values of lines 128-158, the hardware
operations issued and the return value. -/
structure UpdateResult where
  pll : PLL
  est : OffsetState
  settings : FLASHCAM_SETTINGS_T
  params : FLASHCAM_PARAMS_T
  phase : PhaseStep
  ops : List HwOp
  ret : Int
  deriving DecidableEq

/-- FlashCamPLL::update(port, settings, params, buffertime). The arguments mmal_to_int
(Status::mmal_to_int, declared outside the given sources) and portStatus (the status
mmal_port_parameter_set answers with) stand for the collaborators. -/
def update (mmal_to_int : Nat → Int) (portStatus : Nat) (self : PLL) (est : OffsetState)
    (clk : Nat → GpuSample) (settings : FLASHCAM_SETTINGS_T) (params : FLASHCAM_PARAMS_T)
    (buffertime : Nat) : UpdateResult :=
  let g := getGPUoffset est clk
  let t_frame_cpu : Nat := frameTimeCpu est clk buffertime
  let ph := phaseStep settings t_frame_cpu
  let oldf : Nat := toU32 (params.framerate * (FPS_DENOMINATOR : ℚ))
  let newf : Nat := toU32 (ph.nframerate * (FPS_DENOMINATOR : ℚ))
  if oldf = newf then
    { pll := self, est := g.state, settings := settings, params := params, phase := ph,
      ops := [], ret := mmal_to_int MMAL_SUCCESS }
  else
    let params1 : FLASHCAM_PARAMS_T := { params with framerate := ph.nframerate }
    let den : Nat := FPS_DENOMINATOR
    let num : Nat := toU32 (params1.framerate * (den : ℚ))
    let ops := [HwOp.frameRateSet num den]
    if portStatus ≠ MMAL_SUCCESS then
      { pll := self, est := g.state, settings := settings, params := params1, phase := ph,
        ops := ops, ret := mmal_to_int portStatus }
    else
      { pll := self, est := g.state, settings := settings, params := params1, phase := ph,
        ops := ops, ret := mmal_to_int MMAL_SUCCESS }

/-! ## start (lines 205-428) -/

/-- The calibration loop of start (lines 381-396) over the clock pairs read before and
after pwmSetClock: returns t1_us, tdiff and the number of iterations of the iteration
that leaves the loop, or none when no pair of the list ends it. -/
def calibrate : List (Timespec × Timespec) → Option (Nat × Nat × Nat)
  | [] => none
  | (t1, t2) :: rest =>
    let t1_us := timespec_us t1
    let t2_us := timespec_us t2
    let tdiff := subU64 t2_us t1_us
    if tdiff > 200 then
      (calibrate rest).map (fun r => (r.1, r.2.1, r.2.2 + 1))
    else some (t1_us, tdiff, 1)

/-- Span in microseconds of a clock pair, t2_us - t1_us in unsigned 64-bit arithmetic
(line 392). -/
def pairSpan (p : Timespec × Timespec) : Nat := subU64 (timespec_us p.2) (timespec_us p.1)

/-- Outcome of one call of start or stop. -/
structure CallResult where
  pll : PLL
  settings : FLASHCAM_SETTINGS_T
  params : FLASHCAM_PARAMS_T
  ops : List HwOp
  ret : Int
  deriving DecidableEq

/-- FlashCamPLL::start(settings, params); none when the calibration loop does not end
on the given clock pairs. -/
def start (self : PLL) (settings : FLASHCAM_SETTINGS_T) (params : FLASHCAM_PARAMS_T)
    (clk : List (Timespec × Timespec)) : Option CallResult :=
  if self._error then
    some { pll := self, settings := settings, params := params, ops := [], ret := 1 }
  else if self._active then
    some { pll := self, settings := settings, params := params, ops := [], ret := 1 }
  else if settings.pll_enabled ≠ 0 then
    let ops0 : List HwOp := resetGPIO ++ [HwOp.pinModePwmOutput PLL_PIN, HwOp.pwmSetModeMS]
    let target_frequency : ℚ := params.framerate / (settings.pll_divider : ℚ)
    let pwm_clock : Nat := 2
    let pwm_range : Nat := toU32 ((RPI_BASE_FREQ : ℚ) / (target_frequency * (pwm_clock : ℚ)))
    let target_period : ℚ := 1000 / target_frequency
    let pw1 : ℚ :=
      if settings.pll_pulsewidth > target_period then target_period
      else settings.pll_pulsewidth
    let pw2 : ℚ := if pw1 < 0 then 0 else pw1
    let dutycycle : ℚ := pw2 / target_period
    let pwm_pw : Nat := toU32 (dutycycle * (pwm_range : ℚ))
    let settings1 : FLASHCAM_SETTINGS_T :=
      { settings with
        pll_pulsewidth := pw2
        pll_period := 1000000 / target_frequency
        pll_fpsfreq := target_frequency * (settings.pll_divider : ℚ) }
    let ops1 : List HwOp := ops0 ++ [HwOp.pwmSetRange pwm_range, HwOp.pwmWrite PLL_PIN pwm_pw]
    match calibrate clk with
    | none => none
    | some (t1_us, tdiff, iter) =>
      let settings2 : FLASHCAM_SETTINGS_T :=
        { settings1 with
          pll_starttime := (t1_us + 111) % U64
          pll_startinterval := subU64 tdiff 111 }
      some { pll := { self with _active := true }, settings := settings2, params := params,
             ops := ops1 ++ List.replicate iter (HwOp.pwmSetClock pwm_clock), ret := 0 }
  else
    some { pll := self, settings := settings, params := params, ops := [], ret := 0 }

/-! ## stop (lines 430-457) -/

/-- FlashCamPLL::stop(settings, params). -/
def stop (self : PLL) (settings : FLASHCAM_SETTINGS_T) (params : FLASHCAM_PARAMS_T) :
    CallResult :=
  if self._error then
    { pll := self, settings := settings, params := params, ops := [], ret := 1 }
  else if ¬ self._active then
    { pll := self, settings := settings, params := params, ops := [], ret := 1 }
  else
    { pll := { self with _active := false }, settings := settings,
      params := { params with framerate := settings.pll_fpsfreq },
      ops := [HwOp.pwmWrite PLL_PIN 0], ret := 0 }

/-! ## getDefaultSettings (lines 525-536) -/

/-- FlashCamPLL::getDefaultSettings(settings). -/
def getDefaultSettings (settings : FLASHCAM_SETTINGS_T) : FLASHCAM_SETTINGS_T :=
  { settings with
    pll_enabled := 0
    pll_divider := 1
    pll_offset := 0
    pll_pulsewidth := (1 / 2 : ℚ) / (VIDEO_FRAME_RATE_NUM : ℚ)
    pll_starttime := 0
    pll_startinterval := 0
    pll_fpsfreq := 0
    pll_period := 0 }

/-! ## Example inputs -/

/-- The default settings with the PLL switched on. -/
def exampleSettings : FLASHCAM_SETTINGS_T :=
  { getDefaultSettings ⟨0, 0, 0, 0, 0, 0, 0, 0, 0⟩ with pll_enabled := 1 }

/-- Two clock pairs for the calibration loop: a first try at 5 s that took
350 microseconds and a second one, 400 microseconds later, that took 111 microseconds. -/
def exampleClock : List (Timespec × Timespec) :=
  [(⟨5, 0⟩, ⟨5, 350000⟩), (⟨5, 400000⟩, ⟨5, 511000⟩)]

/-- A sample stream for getGPUoffset in which the local clock reads 6 s, the remote
clock agrees with it and the query takes 100 microseconds. -/
def quietClock : Nat → GpuSample := fun _ => ⟨⟨6, 0⟩, 6000000, ⟨6, 100000⟩⟩

/-- Settings as start leaves them for the given frame rate with divider 1 and a start
time of 0, with the given phase offset in microseconds. -/
def lockedSettings (framerate : ℚ) (pll_offset : Int) : FLASHCAM_SETTINGS_T :=
  { exampleSettings with
    pll_offset := pll_offset, pll_fpsfreq := framerate, pll_period := 1000000 / framerate,
    pll_starttime := 0 }

/-! ## Call sequences -/

/-- Results of n successive calls of start on one instance, each call continuing from
the state the previous one left; the i-th call (counted from the last) reads the clock
pairs clks i. The value is none when one of the calls does not return. -/
def startCalls (clks : Nat → List (Timespec × Timespec)) :
    Nat → PLL → FLASHCAM_SETTINGS_T → FLASHCAM_PARAMS_T → Option (List CallResult)
  | 0, _, _, _ => some []
  | n + 1, self, settings, params =>
    match start self settings params (clks n) with
    | none => none
    | some r => (startCalls clks n r.pll r.settings r.params).map (fun rs => r :: rs)

/-- Results of n successive calls of stop on one instance, each call continuing from
the state the previous one left. -/
def stopCalls : Nat → PLL → FLASHCAM_SETTINGS_T → FLASHCAM_PARAMS_T → List CallResult
  | 0, _, _, _ => []
  | n + 1, self, settings, params =>
    let r := stop self settings params
    r :: stopCalls n r.pll r.settings r.params

/-- The inputs of one call of update that come from the environment: the status the
port answers a write with, the clock samples and the frame timestamp. -/
structure UpdateCall where
  portStatus : Nat
  clk : Nat → GpuSample
  buffertime : Nat

/-- State carried from one call to the next: the instance, the static state of the
offset estimator and the caller structures. -/
structure Session where
  pll : PLL
  est : OffsetState
  settings : FLASHCAM_SETTINGS_T
  params : FLASHCAM_PARAMS_T
  deriving DecidableEq

/-- A sequence of update calls, one per frame, in list order. -/
def updateCalls (mmal_to_int : Nat → Int) : List UpdateCall → Session → Session
  | [], s => s
  | c :: cs, s =>
    let r := update mmal_to_int c.portStatus s.pll s.est c.clk s.settings s.params c.buffertime
    updateCalls mmal_to_int cs
      { pll := r.pll, est := r.est, settings := r.settings, params := r.params }

/-! ## The proportional law as the specification words it -/

/-- Retry cap of getGPUoffset (lines 471, 483-484): 50 while the stored offset is 0,
else 5. -/
def maxIter (est : OffsetState) : Nat := if est.offset = 0 then 50 else 5

/-- Bracket width of a sample, t_cpu2 - t_cpu1 in unsigned 64-bit arithmetic
(lines 498, 503). -/
def sampleSpan (s : GpuSample) : Nat := subU64 (timespec_us s.cpu2) (timespec_us s.cpu1)

/-- Candidate offset of a sample, d_offset = t_cpu1 - t_gpu as an int64_t (line 502). -/
def sampleOffset (s : GpuSample) : Int :=
  wrapI64 (subU64 (timespec_us s.cpu1) (s.t_gpu % U64))

/-- Results of successive calls of getGPUoffset, one per clock stream, each call
continuing from the static state the previous one left. -/
def offsetCalls : List (Nat → GpuSample) → OffsetState → List OffsetResult
  | [], _ => []
  | clk :: rest, est => getGPUoffset est clk :: offsetCalls rest (getGPUoffset est clk).state

/-- The blend of the specification with rate 0.1, converted to integers by truncation:
offset = 0.9 * offset + 0.1 * candidateOffset and
accuracyInterval = 0.9 * accuracyInterval + 0.1 * candidateInterval. -/
def specBlend (offset : Int) (accuracyInterval : Nat) (candidateOffset : Int)
    (candidateInterval : Nat) : Int × Int :=
  (truncQ ((1 - 1 / 10 : ℚ) * (offset : ℚ) + (1 / 10 : ℚ) * (candidateOffset : ℚ)),
   truncQ ((1 - 1 / 10 : ℚ) * (accuracyInterval : ℚ) + (1 / 10 : ℚ) * (candidateInterval : ℚ)))

/-- The blend of lines 509-510 as it is evaluated in binary32: the weights 1.0f - rate
and rate with rate = 0.1f, both operands converted to float, each product and the sum
rounded to nearest. -/
def blend32 (stored sample : ℚ) : ℚ :=
  f32 (f32 (f32 (1 - f32 (1 / 10)) * f32 stored) + f32 (f32 (1 / 10) * f32 sample))

/-! ## Values of the PWM set-up of start -/

/-- Local values of lines 320-338 of start. -/
structure PwmSetup where
  target_frequency : ℚ
  pwm_clock : Nat
  pwm_range : Nat
  target_period : ℚ
  pll_pulsewidth : ℚ
  dutycycle : ℚ
  pwm_pw : Nat
  deriving DecidableEq

/-- Lines 320-338 of start: target frequency, clock and range, the pulse width limited to
the period, the duty cycle and the pulse-width register. -/
def pwmSetup (settings : FLASHCAM_SETTINGS_T) (params : FLASHCAM_PARAMS_T) : PwmSetup :=
  let target_frequency : ℚ := params.framerate / (settings.pll_divider : ℚ)
  let pwm_clock : Nat := 2
  let pwm_range : Nat := toU32 ((RPI_BASE_FREQ : ℚ) / (target_frequency * (pwm_clock : ℚ)))
  let target_period : ℚ := 1000 / target_frequency
  let pw1 : ℚ :=
    if settings.pll_pulsewidth > target_period then target_period
    else settings.pll_pulsewidth
  let pw2 : ℚ := if pw1 < 0 then 0 else pw1
  let dutycycle : ℚ := pw2 / target_period
  let pwm_pw : Nat := toU32 (dutycycle * (pwm_range : ℚ))
  { target_frequency := target_frequency, pwm_clock := pwm_clock, pwm_range := pwm_range,
    target_period := target_period, pll_pulsewidth := pw2, dutycycle := dutycycle,
    pwm_pw := pwm_pw }

/-! ## Example clock samples -/

/-- A sample whose local clock reads t1 microseconds before the query and t1 + span
after it, while the remote clock answers t_gpu. -/
def sampleAt (t1 t_gpu span : Nat) : GpuSample :=
  ⟨⟨0, t1 * 1000⟩, t_gpu, ⟨0, (t1 + span) * 1000⟩⟩

/-- A stream whose first n samples take 200 microseconds each and whose later samples
take 100 microseconds, all with a candidate offset of 1010 microseconds. -/
def lateClock (n : Nat) : Nat → GpuSample := fun i =>
  if i < n then sampleAt 7001010 7000000 200 else sampleAt 7001010 7000000 100

/-- A stream whose samples all take 50 microseconds with candidate offset 10. -/
def shiftedClock : Nat → GpuSample := fun _ => sampleAt 7000010 7000000 50

/-- A stream whose samples all take 3 microseconds with candidate offset 3. -/
def closeClock : Nat → GpuSample := fun _ => sampleAt 7000003 7000000 3

/-! ## Runs of the offset estimator -/

/-- Static state of getGPUoffset after successive calls, one per clock stream. -/
def offsetRun : List (Nat → GpuSample) → OffsetState → OffsetState
  | [], est => est
  | clk :: rest, est => offsetRun rest (getGPUoffset est clk).state

/-- No call of the run updated the estimate: each one left its loop with
iter >= max_iter (line 500). -/
def noUpdate : List (Nat → GpuSample) → OffsetState → Bool
  | [], _ => true
  | clk :: rest, est =>
    !decide ((getGPUoffset est clk).iter < maxIter est) &&
      noUpdate rest (getGPUoffset est clk).state

/-! ## Machine arithmetic inside the representable range -/

theorem wrapU64_of_range (z : Int) (h0 : 0 ≤ z) (h1 : z < 2 ^ 64) :
    (wrapU64 z : Int) = z := by
  simp only [wrapU64, U64]
  omega

theorem wrapI64_of_range (z : Int) (h0 : -2 ^ 63 ≤ z) (h1 : z < 2 ^ 63) :
    wrapI64 z = z := by
  simp only [wrapI64, U64]
  omega

theorem subU64_of_le (a b : Nat) (hab : b ≤ a) (ha : a < 2 ^ 64) : subU64 a b = a - b := by
  simp only [subU64, U64]
  omega

theorem truncQ_of_nonneg (q : ℚ) (h : 0 ≤ q) : truncQ q = ⌊q⌋ := by
  simp [truncQ, h]

theorem log2Fuel_spec : ∀ (fuel n : Nat), n ≤ fuel → 1 ≤ n →
    2 ^ log2Fuel fuel n ≤ n ∧ n < 2 ^ (log2Fuel fuel n + 1) := by
  intro fuel
  induction fuel with
  | zero =>
    intro n h1 h2
    omega
  | succ m ih =>
    intro n h1 h2
    by_cases h : 2 ≤ n
    · have hstep : log2Fuel (m + 1) n = log2Fuel m (n / 2) + 1 := by
        simp only [log2Fuel]
        rw [if_pos h]
      obtain ⟨a1, a2⟩ := ih (n / 2) (by omega) (by omega)
      rw [hstep]
      have e1 : 2 ^ (log2Fuel m (n / 2) + 1) = 2 * 2 ^ log2Fuel m (n / 2) := by
        rw [Nat.pow_succ]
        omega
      have e2 : 2 ^ (log2Fuel m (n / 2) + 1 + 1) = 2 * 2 ^ (log2Fuel m (n / 2) + 1) := by
        rw [Nat.pow_succ]
        omega
      constructor
      · rw [e1]
        omega
      · rw [e2]
        omega
    · have hstep : log2Fuel (m + 1) n = 0 := by
        simp only [log2Fuel]
        rw [if_neg h]
      rw [hstep]
      constructor
      · simpa using h2
      · simp only [Nat.zero_add, Nat.pow_one]
        omega

theorem ilog2_spec (n : Nat) (h : 1 ≤ n) : 2 ^ ilog2 n ≤ n ∧ n < 2 ^ (ilog2 n + 1) :=
  log2Fuel_spec n n (Nat.le_refl n) h

theorem pow_quot_bounds (N D : ℚ) (pn pd : Nat) (hD : 0 < D)
    (P1 : (2 : ℚ) ^ pn ≤ N) (P2 : N < (2 : ℚ) ^ (pn + 1))
    (D1 : (2 : ℚ) ^ pd ≤ D) (D2 : D < (2 : ℚ) ^ (pd + 1)) :
    (2 : ℚ) ^ ((pn : Int) - (pd : Int) - 1) ≤ N / D ∧
      N / D < (2 : ℚ) ^ ((pn : Int) - (pd : Int) + 1) := by
  have hz : ∀ (j : Int), (2 : ℚ) ^ ((pn : Int) - (pd : Int) + j) =
      (2 : ℚ) ^ pn / (2 : ℚ) ^ pd * (2 : ℚ) ^ j := by
    intro j
    rw [zpow_add₀ (by norm_num), zpow_sub₀ (by norm_num), zpow_natCast, zpow_natCast]
  have h4 : (0 : ℚ) < (2 : ℚ) ^ pn := by positivity
  have h5 : (0 : ℚ) < (2 : ℚ) ^ pd := by positivity
  have h3 : (2 : ℚ) ^ (pd + 1) = 2 * (2 : ℚ) ^ pd := by
    rw [pow_succ]
    ring
  have h3b : (2 : ℚ) ^ (pn + 1) = 2 * (2 : ℚ) ^ pn := by
    rw [pow_succ]
    ring
  rw [h3] at D2
  rw [h3b] at P2
  constructor
  · have h1 := hz (-1)
    rw [← sub_eq_add_neg] at h1
    rw [h1]
    have h2 : (2 : ℚ) ^ (-1 : Int) = 1 / 2 := by norm_num
    rw [h2, div_mul_eq_mul_div, div_le_div_iff₀ h5 hD]
    nlinarith
  · rw [hz 1]
    have h2 : (2 : ℚ) ^ (1 : Int) = 2 := by norm_num
    rw [h2, div_mul_eq_mul_div, div_lt_div_iff₀ hD h5]
    nlinarith

theorem expo2_spec (a : ℚ) (ha : 0 < a) :
    (2 : ℚ) ^ expo2 a ≤ a ∧ a < (2 : ℚ) ^ (expo2 a + 1) := by
  have hnum : 0 < a.num := Rat.num_pos.mpr ha
  have hden : 0 < a.den := a.den_pos
  obtain ⟨p1, p2⟩ := ilog2_spec a.num.natAbs (by omega)
  obtain ⟨d1, d2⟩ := ilog2_spec a.den hden
  have hnq : ((a.num.natAbs : Nat) : ℚ) = (a.num : ℚ) := by
    rw [Nat.cast_natAbs, abs_of_pos hnum]
  have hdq : (0 : ℚ) < (a.den : ℚ) := by exact_mod_cast hden
  have P1 : (2 : ℚ) ^ (ilog2 a.num.natAbs) ≤ (a.num : ℚ) := by
    rw [← hnq]
    exact_mod_cast p1
  have P2 : (a.num : ℚ) < (2 : ℚ) ^ (ilog2 a.num.natAbs + 1) := by
    rw [← hnq]
    exact_mod_cast p2
  have D1 : (2 : ℚ) ^ (ilog2 a.den) ≤ (a.den : ℚ) := by exact_mod_cast d1
  have D2 : (a.den : ℚ) < (2 : ℚ) ^ (ilog2 a.den + 1) := by exact_mod_cast d2
  obtain ⟨hlow, hup⟩ := pow_quot_bounds (a.num : ℚ) (a.den : ℚ) _ _ hdq P1 P2 D1 D2
  rw [Rat.num_div_den a] at hlow hup
  unfold expo2
  split
  · rename_i h
    exact ⟨h, hup⟩
  · rename_i h
    refine ⟨hlow, ?_⟩
    have : (ilog2 a.num.natAbs : Int) - (ilog2 a.den : Int) - 1 + 1 =
        (ilog2 a.num.natAbs : Int) - (ilog2 a.den : Int) := by ring
    rw [this]
    exact not_le.mp h

theorem roundHalfEven_err (m : ℚ) : |(roundHalfEven m : ℚ) - m| ≤ 1 / 2 := by
  have h1 : ((⌊m⌋ : Int) : ℚ) ≤ m := Int.floor_le m
  have h2 : m < ((⌊m⌋ : Int) : ℚ) + 1 := Int.lt_floor_add_one m
  unfold roundHalfEven
  split
  · rename_i h
    rw [abs_le]
    constructor <;> linarith
  · rename_i h
    split
    · rename_i h3
      push_cast
      rw [abs_le]
      constructor <;> linarith
    · rename_i h3
      split
      · rw [abs_le]
        constructor <;> linarith
      · push_cast
        rw [abs_le]
        constructor <;> linarith

theorem ulp32_pos (a : ℚ) : 0 < ulp32 a := by
  unfold ulp32
  exact zpow_pos (by norm_num) _

theorem ulp32_le (a : ℚ) (ha : 0 < a) : ulp32 a / 2 ≤ a / 2 ^ 24 + 1 / 2 ^ 150 := by
  obtain ⟨h1, h2⟩ := expo2_spec a ha
  unfold ulp32
  by_cases he : -126 ≤ expo2 a
  · rw [max_eq_left he, zpow_sub₀ (by norm_num)]
    have h3 : (2 : ℚ) ^ (23 : Int) = 2 ^ 23 := by norm_num
    rw [h3]
    have h4 : (2 : ℚ) ^ expo2 a / 2 ^ 23 / 2 ≤ a / 2 ^ 24 := by
      rw [div_div, div_le_div_iff₀ (by norm_num) (by norm_num)]
      nlinarith
    have h5 : (0 : ℚ) < 1 / 2 ^ 150 := by positivity
    linarith
  · have he2 : expo2 a ≤ -126 := by omega
    rw [max_eq_right he2]
    have h3 : (2 : ℚ) ^ ((-126 : Int) - 23) / 2 = 1 / 2 ^ 150 := by norm_num
    rw [h3]
    have h4 : (0 : ℚ) ≤ a / 2 ^ 24 := by positivity
    linarith

theorem f32_pos_err (q : ℚ) (hq : 0 < q) : |f32 q - q| ≤ q / 2 ^ 24 + 1 / 2 ^ 150 := by
  have hu := ulp32_pos q
  have hr := roundHalfEven_err (q / ulp32 q)
  have hf : f32 q = (roundHalfEven (q / ulp32 q) : ℚ) * ulp32 q := by
    unfold f32
    rw [if_neg (ne_of_gt hq), if_pos hq]
  have hd : f32 q - q = ((roundHalfEven (q / ulp32 q) : ℚ) - q / ulp32 q) * ulp32 q := by
    rw [hf]
    field_simp
  rw [hd, abs_mul, abs_of_pos hu]
  have h1 : |(roundHalfEven (q / ulp32 q) : ℚ) - q / ulp32 q| * ulp32 q ≤ 1 / 2 * ulp32 q :=
    mul_le_mul_of_nonneg_right hr hu.le
  have h2 := ulp32_le q hq
  linarith

theorem f32_zero : f32 0 = 0 := by
  unfold f32
  rw [if_pos rfl]

theorem f32_neg (q : ℚ) : f32 (-q) = -f32 q := by
  rcases lt_trichotomy q 0 with h | h | h
  · have h1 : (0 : ℚ) < -q := by linarith
    have e1 : f32 (-q) = (roundHalfEven (-q / ulp32 (-q)) : ℚ) * ulp32 (-q) := by
      unfold f32
      rw [if_neg (ne_of_gt h1), if_pos h1]
    have e2 : f32 q = -((roundHalfEven (-q / ulp32 (-q)) : ℚ) * ulp32 (-q)) := by
      unfold f32
      rw [if_neg (ne_of_lt h), if_neg (not_lt.mpr h.le)]
    rw [e1, e2, neg_neg]
  · rw [h, neg_zero, f32_zero, neg_zero]
  · have h1 : -q < 0 := by linarith
    have e1 : f32 (-q) = -((roundHalfEven (- -q / ulp32 (- -q)) : ℚ) * ulp32 (- -q)) := by
      unfold f32
      rw [if_neg (ne_of_lt h1), if_neg (not_lt.mpr h1.le)]
    have e2 : f32 q = (roundHalfEven (q / ulp32 q) : ℚ) * ulp32 q := by
      unfold f32
      rw [if_neg (ne_of_gt h), if_pos h]
    rw [e1, e2, neg_neg]

/-- Rounding to binary32 moves a number by at most 2^(-24) of its magnitude, plus
2^(-150) in the subnormal range. -/
theorem f32_err (q : ℚ) : |f32 q - q| ≤ |q| / 2 ^ 24 + 1 / 2 ^ 150 := by
  rcases lt_trichotomy q 0 with h | h | h
  · have h1 : (0 : ℚ) < -q := by linarith
    have h2 := f32_pos_err (-q) h1
    rw [f32_neg] at h2
    have h3 : -f32 q - -q = -(f32 q - q) := by ring
    rw [h3, abs_neg] at h2
    rw [abs_of_neg h]
    exact h2
  · rw [h, f32_zero]
    norm_num
  · rw [abs_of_pos h]
    exact f32_pos_err q h

/-- Values of the rounding: 0.1f and 1/3 rounded to 24 bits, the tie 2^24 + 1 rounded to
the even neighbour 2^24, 2^24 + 3 rounded up to 2^24 + 4, the smallest subnormal kept, and
half of it rounded to 0. -/
theorem f32_values :
    f32 (1 / 10) = 13421773 / 134217728 ∧ f32 (1 / 3) = 11184811 / 33554432 ∧
    f32 16777217 = 16777216 ∧ f32 16777219 = 16777220 ∧ f32 (-16777219) = -16777220 ∧
    f32 (1 / 2 ^ 149) = 1 / 2 ^ 149 ∧ f32 (1 / 2 ^ 150) = 0 ∧
    f32 (3 / 2 ^ 150) = 2 / 2 ^ 149 := by
  decide!

theorem rate_value : f32 (1 / 10) = 13421773 / 134217728 ∧
    f32 (1 - f32 (1 / 10)) = 7549747 / 8388608 := by
  decide!

/-- The blend in binary32 against the exact blend with the weights 0.9 and 0.1. -/
theorem blend_err (o c : ℚ) :
    |blend32 o c - ((1 - 1 / 10) * o + 1 / 10 * c)| ≤
      (|o| + |c|) * (7 / 2 ^ 25) + 1 / 2 ^ 147 := by
  unfold blend32
  rw [rate_value.2, rate_value.1]
  have ho := abs_nonneg o
  have hc := abs_nonneg c
  have d1 := abs_le.mp (f32_err o)
  have d3 := abs_le.mp (f32_err c)
  have ao := abs_le.mp (le_refl |o|)
  have ac := abs_le.mp (le_refl |c|)
  -- the converted operands
  have x1 : |f32 o| ≤ |o| * (1 + 1 / 2 ^ 24) + 1 / 2 ^ 150 := by
    rw [abs_le]
    constructor <;> linarith [d1.1, d1.2, ao.1, ao.2]
  have x2 : |f32 c| ≤ |c| * (1 + 1 / 2 ^ 24) + 1 / 2 ^ 150 := by
    rw [abs_le]
    constructor <;> linarith [d3.1, d3.2, ac.1, ac.2]
  -- the two products
  have m1 : |(7549747 / 8388608 : ℚ) * f32 o| = 7549747 / 8388608 * |f32 o| := by
    rw [abs_mul, abs_of_pos (by norm_num : (0 : ℚ) < 7549747 / 8388608)]
  have m2 : |(13421773 / 134217728 : ℚ) * f32 c| = 13421773 / 134217728 * |f32 c| := by
    rw [abs_mul, abs_of_pos (by norm_num : (0 : ℚ) < 13421773 / 134217728)]
  have e2 := f32_err ((7549747 / 8388608 : ℚ) * f32 o)
  have e4 := f32_err ((13421773 / 134217728 : ℚ) * f32 c)
  rw [m1] at e2
  rw [m2] at e4
  have d2 := abs_le.mp e2
  have d4 := abs_le.mp e4
  have ax1 := abs_le.mp (le_refl |f32 o|)
  have ax2 := abs_le.mp (le_refl |f32 c|)
  have p1 : |f32 ((7549747 / 8388608 : ℚ) * f32 o)| ≤
      7549747 / 8388608 * |f32 o| * (1 + 1 / 2 ^ 24) + 1 / 2 ^ 150 := by
    rw [abs_le]
    constructor <;> linarith [d2.1, d2.2, ax1.1, ax1.2]
  have p2 : |f32 ((13421773 / 134217728 : ℚ) * f32 c)| ≤
      13421773 / 134217728 * |f32 c| * (1 + 1 / 2 ^ 24) + 1 / 2 ^ 150 := by
    rw [abs_le]
    constructor <;> linarith [d4.1, d4.2, ax2.1, ax2.2]
  -- the sum
  have e5 := f32_err (f32 ((7549747 / 8388608 : ℚ) * f32 o) +
    f32 ((13421773 / 134217728 : ℚ) * f32 c))
  have s5 := abs_add (f32 ((7549747 / 8388608 : ℚ) * f32 o))
    (f32 ((13421773 / 134217728 : ℚ) * f32 c))
  have d5 := abs_le.mp e5
  -- numeric bounds on the magnitudes
  have b1 : |f32 o| ≤ |o| * (16777217 / 16777216) + 1 / 2 ^ 150 := by linarith
  have b2 : |f32 c| ≤ |c| * (16777217 / 16777216) + 1 / 2 ^ 150 := by linarith
  have b3 : |f32 ((7549747 / 8388608 : ℚ) * f32 o)| ≤ |o| * (91 / 100) + 1 / 2 ^ 149 := by
    linarith
  have b4 : |f32 ((13421773 / 134217728 : ℚ) * f32 c)| ≤ |c| * (11 / 100) + 1 / 2 ^ 149 := by
    linarith
  rw [abs_le]
  constructor <;> linarith [d1.1, d1.2, d2.1, d2.2, d3.1, d3.2, d4.1, d4.2, d5.1, d5.2]

theorem blend32_zero : blend32 0 0 = 0 := by
  decide!

theorem blend_err_int (o c : Int) :
    |blend32 (o : ℚ) (c : ℚ) - ((1 - 1 / 10) * (o : ℚ) + 1 / 10 * (c : ℚ))| ≤
      (|(o : ℚ)| + |(c : ℚ)|) / 2 ^ 22 := by
  by_cases h : o = 0 ∧ c = 0
  · rw [h.1, h.2]
    simp [blend32_zero]
  · have h1 : 1 ≤ |o| + |c| := by
      rcases Int.lt_or_gt_of_ne (show |o| + |c| ≠ 0 by
        intro h0
        have a1 := abs_nonneg o
        have a2 := abs_nonneg c
        have a3 : |o| = 0 := by omega
        have a4 : |c| = 0 := by omega
        exact h ⟨abs_eq_zero.mp a3, abs_eq_zero.mp a4⟩) with h2 | h2
      · have a1 := abs_nonneg o
        have a2 := abs_nonneg c
        omega
      · omega
    have h2 : (1 : ℚ) ≤ |(o : ℚ)| + |(c : ℚ)| := by
      have : ((1 : Int) : ℚ) ≤ ((|o| + |c| : Int) : ℚ) := by exact_mod_cast h1
      simpa using this
    have h3 := blend_err (o : ℚ) (c : ℚ)
    have h4 : (1 : ℚ) / 2 ^ 147 ≤ (|(o : ℚ)| + |(c : ℚ)|) * (1 / 2 ^ 25) := by
      have : (1 : ℚ) / 2 ^ 147 ≤ 1 * (1 / 2 ^ 25) := by norm_num
      nlinarith
    linarith

/-! ## Lifecycle guards (C6, C7) -/

theorem start_rejected (self : PLL) (settings : FLASHCAM_SETTINGS_T)
    (params : FLASHCAM_PARAMS_T) (clk : List (Timespec × Timespec))
    (h : self._error = true ∨ self._active = true) :
    start self settings params clk =
      some { pll := self, settings := settings, params := params, ops := [], ret := 1 } := by
  unfold start
  rcases h with h | h
  · simp [h]
  · by_cases he : self._error = true <;> simp [h, he]

theorem stop_rejected (self : PLL) (settings : FLASHCAM_SETTINGS_T)
    (params : FLASHCAM_PARAMS_T) (h : self._error = true ∨ self._active = false) :
    stop self settings params =
      { pll := self, settings := settings, params := params, ops := [], ret := 1 } := by
  unfold stop
  rcases h with h | h
  · simp [h]
  · by_cases he : self._error = true <;> simp [h, he]

/-- C6: whenever the initialization-error flag is set or the instance is already
active, start returns 1 with the instance, the settings and the params as they were and
no hardware operation, for every clock input and every number n of repeated calls; and
whenever the flag is set or the instance is not active, stop does the same. -/
theorem start_stop_guard_rejects (self : PLL) (settings : FLASHCAM_SETTINGS_T)
    (params : FLASHCAM_PARAMS_T) :
    (self._error = true ∨ self._active = true →
      ∀ (clks : Nat → List (Timespec × Timespec)) (n : Nat),
        start self settings params (clks n) =
          some { pll := self, settings := settings, params := params, ops := [], ret := 1 } ∧
        startCalls clks n self settings params =
          some (List.replicate n
            { pll := self, settings := settings, params := params, ops := [], ret := 1 })) ∧
    (self._error = true ∨ self._active = false →
      ∀ n : Nat,
        stop self settings params =
          { pll := self, settings := settings, params := params, ops := [], ret := 1 } ∧
        stopCalls n self settings params =
          List.replicate n
            { pll := self, settings := settings, params := params, ops := [], ret := 1 }) := by
  refine ⟨fun h clks n => ⟨start_rejected self settings params _ h, ?_⟩,
    fun h n => ⟨stop_rejected self settings params h, ?_⟩⟩
  · induction n with
    | zero => rfl
    | succ m ih =>
      simp only [startCalls, start_rejected self settings params _ h, ih, Option.map_some',
        List.replicate_succ]
  · induction n with
    | zero => rfl
    | succ m ih =>
      simp only [stopCalls, stop_rejected self settings params h, ih, List.replicate_succ]

/-- Witness of C6: an instance with the error flag set rejects start, and an instance
that is not active rejects stop, three times in a row. -/
theorem start_stop_guard_rejects_witness :
    startCalls (fun _ => []) 3 ⟨true, false⟩ (getDefaultSettings ⟨0, 0, 0, 0, 0, 0, 0, 0, 0⟩) ⟨30⟩ =
      some (List.replicate 3
        { pll := ⟨true, false⟩, settings := getDefaultSettings ⟨0, 0, 0, 0, 0, 0, 0, 0, 0⟩,
          params := ⟨30⟩, ops := [], ret := 1 }) ∧
    stopCalls 3 ⟨false, false⟩ (getDefaultSettings ⟨0, 0, 0, 0, 0, 0, 0, 0, 0⟩) ⟨30⟩ =
      List.replicate 3
        { pll := ⟨false, false⟩, settings := getDefaultSettings ⟨0, 0, 0, 0, 0, 0, 0, 0, 0⟩,
          params := ⟨30⟩, ops := [], ret := 1 } :=
  ⟨((start_stop_guard_rejects ⟨true, false⟩ _ ⟨30⟩).1 (Or.inl rfl) (fun _ => []) 3).2,
   ((start_stop_guard_rejects ⟨false, false⟩ _ ⟨30⟩).2 (Or.inr rfl) 3).2⟩

/-- C7: with no initialization error, the instance not active and pll_enabled = 0,
start returns 0 and changes nothing: the activity flag stays false, settings and params
are the ones passed in and no hardware operation is issued. -/
theorem start_disabled_noop (self : PLL) (settings : FLASHCAM_SETTINGS_T)
    (params : FLASHCAM_PARAMS_T) (clk : List (Timespec × Timespec))
    (he : self._error = false) (ha : self._active = false)
    (hen : settings.pll_enabled = 0) :
    start self settings params clk =
      some { pll := self, settings := settings, params := params, ops := [], ret := 0 } ∧
    ∀ r, start self settings params clk = some r →
      r.ret = 0 ∧ r.pll._active = false ∧ r.ops = [] ∧
      r.settings.pll_period = settings.pll_period ∧
      r.settings.pll_fpsfreq = settings.pll_fpsfreq ∧
      r.settings.pll_starttime = settings.pll_starttime ∧
      r.settings.pll_startinterval = settings.pll_startinterval ∧
      r.settings.pll_pulsewidth = settings.pll_pulsewidth ∧
      r.params.framerate = params.framerate := by
  have h : start self settings params clk =
      some { pll := self, settings := settings, params := params, ops := [], ret := 0 } := by
    simp [start, he, ha, hen]
  refine ⟨h, fun r hr => ?_⟩
  rw [h] at hr
  cases hr
  simp [ha]

/-- Witness of C7: start on a fresh instance with the default (disabled) settings. -/
theorem start_disabled_noop_witness :
    start ⟨false, false⟩ (getDefaultSettings ⟨0, 0, 0, 0, 0, 0, 0, 0, 0⟩) ⟨30⟩ [] =
      some { pll := ⟨false, false⟩, settings := getDefaultSettings ⟨0, 0, 0, 0, 0, 0, 0, 0, 0⟩,
             params := ⟨30⟩, ops := [], ret := 0 } :=
  (start_disabled_noop ⟨false, false⟩ _ ⟨30⟩ [] rfl rfl rfl).1

/-! ## Quantised commit of update (C4) -/

/-- C4: update compares the numerators over 256 of the current frame rate and of the
new target. When they are equal it issues no write, leaves params as they were and
returns the success code; otherwise it stores the new target in params, issues exactly
one frame-rate write with the numerator of the new target over 256, and returns the
code of the status the port answered with. The new target is the one of lines 128-158
at the frame time in the local clock domain. -/
theorem update_quantized_commit (mmal_to_int : Nat → Int) (portStatus : Nat) (self : PLL)
    (est : OffsetState) (clk : Nat → GpuSample) (settings : FLASHCAM_SETTINGS_T)
    (params : FLASHCAM_PARAMS_T) (buffertime : Nat) :
    (update mmal_to_int portStatus self est clk settings params buffertime).phase =
        phaseStep settings (frameTimeCpu est clk buffertime) ∧
    (toU32 (params.framerate * 256) =
        toU32 ((phaseStep settings (frameTimeCpu est clk buffertime)).nframerate * 256) →
      (update mmal_to_int portStatus self est clk settings params buffertime).ops = [] ∧
      (update mmal_to_int portStatus self est clk settings params buffertime).params = params ∧
      (update mmal_to_int portStatus self est clk settings params buffertime).ret =
        mmal_to_int MMAL_SUCCESS) ∧
    (toU32 (params.framerate * 256) ≠
        toU32 ((phaseStep settings (frameTimeCpu est clk buffertime)).nframerate * 256) →
      (update mmal_to_int portStatus self est clk settings params buffertime).ops =
        [HwOp.frameRateSet
          (toU32 ((phaseStep settings (frameTimeCpu est clk buffertime)).nframerate * 256))
          256] ∧
      (update mmal_to_int portStatus self est clk settings params buffertime).params.framerate =
        (phaseStep settings (frameTimeCpu est clk buffertime)).nframerate ∧
      (update mmal_to_int portStatus self est clk settings params buffertime).ret =
        mmal_to_int portStatus) := by
  have h256 : ((FPS_DENOMINATOR : Nat) : ℚ) = 256 := by simp [FPS_DENOMINATOR]
  refine ⟨?_, fun h => ?_, fun h => ?_⟩
  · unfold update
    simp only [h256]
    split
    · rfl
    · split <;> rfl
  · unfold update
    simp only [h256]
    rw [if_pos h]
    exact ⟨rfl, rfl, rfl⟩
  · unfold update
    simp only [h256]
    rw [if_neg h]
    by_cases hp : portStatus = MMAL_SUCCESS
    · simp [hp, FPS_DENOMINATOR]
    · simp [hp, FPS_DENOMINATOR]

/-! ## update leaves the instance and the settings alone -/

theorem update_pll (mmal_to_int : Nat → Int) (portStatus : Nat) (self : PLL)
    (est : OffsetState) (clk : Nat → GpuSample) (settings : FLASHCAM_SETTINGS_T)
    (params : FLASHCAM_PARAMS_T) (buffertime : Nat) :
    (update mmal_to_int portStatus self est clk settings params buffertime).pll = self := by
  unfold update
  simp only
  split
  · rfl
  · split <;> rfl

theorem update_settings (mmal_to_int : Nat → Int) (portStatus : Nat) (self : PLL)
    (est : OffsetState) (clk : Nat → GpuSample) (settings : FLASHCAM_SETTINGS_T)
    (params : FLASHCAM_PARAMS_T) (buffertime : Nat) :
    (update mmal_to_int portStatus self est clk settings params buffertime).settings =
      settings := by
  unfold update
  simp only
  split
  · rfl
  · split <;> rfl

theorem updateCalls_pll_settings (mmal_to_int : Nat → Int) (calls : List UpdateCall)
    (s : Session) :
    (updateCalls mmal_to_int calls s).pll = s.pll ∧
    (updateCalls mmal_to_int calls s).settings = s.settings := by
  induction calls generalizing s with
  | nil => exact ⟨rfl, rfl⟩
  | cons c cs ih =>
    simp only [updateCalls]
    refine ⟨(ih _).1.trans ?_, (ih _).2.trans ?_⟩
    · exact update_pll _ _ _ _ _ _ _ _
    · exact update_settings _ _ _ _ _ _ _ _

/-! ## The calibration loop -/

theorem calibrate_first_accepted (pre post : List (Timespec × Timespec))
    (p : Timespec × Timespec) (hpre : ∀ q ∈ pre, 200 < pairSpan q) (hp : pairSpan p ≤ 200) :
    calibrate (pre ++ p :: post) = some (timespec_us p.1, pairSpan p, pre.length + 1) := by
  induction pre with
  | nil =>
    obtain ⟨t1, t2⟩ := p
    have h : ¬ subU64 (timespec_us t2) (timespec_us t1) > 200 := by
      simpa [pairSpan] using hp
    simp [calibrate, h, pairSpan]
  | cons q qs ih =>
    obtain ⟨u1, u2⟩ := q
    have hq : subU64 (timespec_us u2) (timespec_us u1) > 200 := by
      simpa [pairSpan] using hpre (u1, u2) (List.mem_cons_self _ _)
    have ih1 := ih (fun x hx => hpre x (List.mem_cons_of_mem _ hx))
    simp [calibrate, hq, ih1]

theorem calibrate_none_of_all_rejected (clk : List (Timespec × Timespec))
    (h : ∀ q ∈ clk, 200 < pairSpan q) : calibrate clk = none := by
  induction clk with
  | nil => rfl
  | cons q qs ih =>
    obtain ⟨u1, u2⟩ := q
    have hq : subU64 (timespec_us u2) (timespec_us u1) > 200 := by
      simpa [pairSpan] using h (u1, u2) (List.mem_cons_self _ _)
    simp [calibrate, hq, ih (fun x hx => h x (List.mem_cons_of_mem _ hx))]

theorem start_enabled (self : PLL) (settings : FLASHCAM_SETTINGS_T)
    (params : FLASHCAM_PARAMS_T) (clk : List (Timespec × Timespec)) (t1_us tdiff iter : Nat)
    (he : self._error = false) (ha : self._active = false)
    (hen : settings.pll_enabled ≠ 0) (hc : calibrate clk = some (t1_us, tdiff, iter)) :
    ∃ r pw, start self settings params clk = some r ∧ r.ret = 0 ∧
      r.pll = { self with _active := true } ∧ r.params = params ∧
      r.settings.pll_period = 1000000 / (params.framerate / (settings.pll_divider : ℚ)) ∧
      r.settings.pll_fpsfreq =
        params.framerate / (settings.pll_divider : ℚ) * (settings.pll_divider : ℚ) ∧
      r.settings.pll_starttime = (t1_us + 111) % U64 ∧
      r.settings.pll_startinterval = subU64 tdiff 111 ∧
      r.ops = resetGPIO ++ [HwOp.pinModePwmOutput PLL_PIN, HwOp.pwmSetModeMS] ++
        [HwOp.pwmSetRange
          (toU32 ((RPI_BASE_FREQ : ℚ) / (params.framerate / (settings.pll_divider : ℚ) * 2))),
         HwOp.pwmWrite PLL_PIN pw] ++ List.replicate iter (HwOp.pwmSetClock 2) := by
  have hen1 : (settings.pll_enabled = 0) = False := eq_false hen
  simp [start, he, ha, hen1, hc]

theorem start_success_enabled (self : PLL) (settings : FLASHCAM_SETTINGS_T)
    (params : FLASHCAM_PARAMS_T) (clk : List (Timespec × Timespec)) (r : CallResult)
    (hen : settings.pll_enabled ≠ 0) (hs : start self settings params clk = some r)
    (hret : r.ret = 0) :
    self._error = false ∧ self._active = false ∧ ∃ c, calibrate clk = some c := by
  unfold start at hs
  cases he : self._error
  · cases ha : self._active
    · refine ⟨rfl, rfl, ?_⟩
      cases hc : calibrate clk with
      | none => simp [he, ha, hen, hc] at hs
      | some c => exact ⟨c, rfl⟩
    · simp [he, ha] at hs
      rw [← hs] at hret
      simp at hret
  · simp [he] at hs
    rw [← hs] at hret
    simp at hret

/-- C10: when the clock pairs fed to the calibration loop of start begin with pairs of
span above 200 followed by a pair p of span at most 200, start returns after exactly one
pwmSetClock per pair up to and including p, with pll_starttime = t_before + 111 and
pll_startinterval = span - 111 of the pair p, both in unsigned 64-bit arithmetic (the
plain sum when it fits 64 bits, the plain difference when the span is at least 111). If
every span is exactly 111, p is the first pair and pll_startinterval = 0. -/
theorem start_calibration_first_accepted (self : PLL) (settings : FLASHCAM_SETTINGS_T)
    (params : FLASHCAM_PARAMS_T) (pre post : List (Timespec × Timespec))
    (p : Timespec × Timespec)
    (he : self._error = false) (ha : self._active = false)
    (hen : settings.pll_enabled ≠ 0)
    (hpre : ∀ q ∈ pre, 200 < pairSpan q) (hp : pairSpan p ≤ 200) :
    ∃ r pw, start self settings params (pre ++ p :: post) = some r ∧
      r.ops = resetGPIO ++ [HwOp.pinModePwmOutput PLL_PIN, HwOp.pwmSetModeMS] ++
        [HwOp.pwmSetRange
          (toU32 ((RPI_BASE_FREQ : ℚ) / (params.framerate / (settings.pll_divider : ℚ) * 2))),
         HwOp.pwmWrite PLL_PIN pw] ++
        List.replicate (pre.length + 1) (HwOp.pwmSetClock 2) ∧
      r.settings.pll_starttime = (timespec_us p.1 + 111) % U64 ∧
      r.settings.pll_startinterval = subU64 (pairSpan p) 111 ∧
      (timespec_us p.1 + 111 < U64 → r.settings.pll_starttime = timespec_us p.1 + 111) ∧
      (111 ≤ pairSpan p → r.settings.pll_startinterval = pairSpan p - 111) ∧
      ((∀ q ∈ pre ++ p :: post, pairSpan q = 111) →
        pre = [] ∧ r.settings.pll_startinterval = 0) := by
  have hc := calibrate_first_accepted pre post p hpre hp
  obtain ⟨r, pw, h1, -, -, -, -, -, h7, h8, h9⟩ :=
    start_enabled self settings params _ _ _ _ he ha hen hc
  have hsub : 111 ≤ pairSpan p → subU64 (pairSpan p) 111 = pairSpan p - 111 := by
    intro h
    exact subU64_of_le _ _ h (by omega)
  refine ⟨r, pw, h1, h9, h7, h8, ?_, ?_, ?_⟩
  · intro h
    rw [h7, Nat.mod_eq_of_lt h]
  · intro h
    rw [h8, hsub h]
  · intro hall
    have hpre0 : pre = [] := by
      cases pre with
      | nil => rfl
      | cons a as =>
        have h1 := hall a (by simp)
        have h2 := hpre a (by simp)
        omega
    have hp111 : pairSpan p = 111 := hall p (by simp)
    refine ⟨hpre0, ?_⟩
    rw [h8, hsub (by omega), hp111]

/-- Witness of C10: the first pair of exampleClock spans 350 microseconds and is retried,
the second spans 111 and is accepted. -/
theorem start_calibration_first_accepted_witness :
    ∃ r, start ⟨false, false⟩ exampleSettings ⟨30⟩ exampleClock = some r ∧
      r.settings.pll_starttime = 5000511 ∧ r.settings.pll_startinterval = 0 :=
  have h := start_calibration_first_accepted ⟨false, false⟩ exampleSettings ⟨30⟩
    [(⟨5, 0⟩, ⟨5, 350000⟩)] [] (⟨5, 400000⟩, ⟨5, 511000⟩) rfl rfl (by decide)
    (by decide) (by decide)
  match h with
  | ⟨r, _, h1, _, _, _, h5, h6, _⟩ =>
    ⟨r, h1, (h5 (by decide)).trans (by decide), (h6 (by decide)).trans (by decide)⟩

/-! ## Lifecycle: stop after start and updates (C9) -/

/-- C9: after a start with the PLL enabled that returned success, any sequence of update
calls (any port answers, clock samples and frame timestamps, any estimator state) leaves
the settings as start stored them, and the following stop returns 0, leaves the instance
inactive and sets params.framerate to the pll_fpsfreq stored by that start. -/
theorem stop_after_updates_restores_fpsfreq (mmal_to_int : Nat → Int) (self : PLL)
    (settings : FLASHCAM_SETTINGS_T) (params : FLASHCAM_PARAMS_T)
    (clk : List (Timespec × Timespec)) (r : CallResult) (est : OffsetState)
    (calls : List UpdateCall)
    (hen : settings.pll_enabled ≠ 0) (hs : start self settings params clk = some r)
    (hret : r.ret = 0) :
    (updateCalls mmal_to_int calls ⟨r.pll, est, r.settings, r.params⟩).settings = r.settings ∧
    (stop (updateCalls mmal_to_int calls ⟨r.pll, est, r.settings, r.params⟩).pll
        (updateCalls mmal_to_int calls ⟨r.pll, est, r.settings, r.params⟩).settings
        (updateCalls mmal_to_int calls ⟨r.pll, est, r.settings, r.params⟩).params).ret = 0 ∧
    (stop (updateCalls mmal_to_int calls ⟨r.pll, est, r.settings, r.params⟩).pll
        (updateCalls mmal_to_int calls ⟨r.pll, est, r.settings, r.params⟩).settings
        (updateCalls mmal_to_int calls ⟨r.pll, est, r.settings, r.params⟩).params).pll._active
      = false ∧
    (stop (updateCalls mmal_to_int calls ⟨r.pll, est, r.settings, r.params⟩).pll
        (updateCalls mmal_to_int calls ⟨r.pll, est, r.settings, r.params⟩).settings
        (updateCalls mmal_to_int calls ⟨r.pll, est, r.settings, r.params⟩).params).params.framerate
      = r.settings.pll_fpsfreq := by
  obtain ⟨he, ha, ⟨t1_us, tdiff, iter⟩, hc⟩ :=
    start_success_enabled self settings params clk r hen hs hret
  obtain ⟨r1, pw, h1, -, h3, -⟩ :=
    start_enabled self settings params clk t1_us tdiff iter he ha hen hc
  rw [hs] at h1
  cases h1
  obtain ⟨hp, hset⟩ := updateCalls_pll_settings mmal_to_int calls ⟨r.pll, est, r.settings, r.params⟩
  simp only at hp hset
  rw [hp, hset, h3]
  simp [stop, he]

theorem example_start_returns :
    ∃ r, start ⟨false, false⟩ exampleSettings ⟨30⟩ exampleClock = some r ∧ r.ret = 0 ∧
      r.settings.pll_fpsfreq = 30 := by
  have hc : calibrate exampleClock = some (5000400, 111, 2) := by decide
  obtain ⟨r, pw, h1, h2, -, -, -, h6, -⟩ :=
    start_enabled ⟨false, false⟩ exampleSettings ⟨30⟩ exampleClock _ _ _ rfl rfl (by decide) hc
  refine ⟨r, h1, h2, ?_⟩
  rw [h6]
  norm_num [exampleSettings, getDefaultSettings]

/-- Witness of C9: start at 30 frames per second, two frames (the first write answered
with a failure status), then stop: the reported frame rate is 30 again. -/
theorem stop_after_updates_restores_fpsfreq_witness :
    ∃ r, start ⟨false, false⟩ exampleSettings ⟨30⟩ exampleClock = some r ∧
      (stop
        (updateCalls (fun n => (n : Int))
          [⟨1, quietClock, 5012511⟩, ⟨0, quietClock, 5050000⟩]
          ⟨r.pll, ⟨0, 0, 0⟩, r.settings, r.params⟩).pll
        (updateCalls (fun n => (n : Int))
          [⟨1, quietClock, 5012511⟩, ⟨0, quietClock, 5050000⟩]
          ⟨r.pll, ⟨0, 0, 0⟩, r.settings, r.params⟩).settings
        (updateCalls (fun n => (n : Int))
          [⟨1, quietClock, 5012511⟩, ⟨0, quietClock, 5050000⟩]
          ⟨r.pll, ⟨0, 0, 0⟩, r.settings, r.params⟩).params).params.framerate = 30 :=
  match example_start_returns with
  | ⟨r, hr, hret, hfps⟩ =>
    ⟨r, hr,
      ((stop_after_updates_restores_fpsfreq (fun n => (n : Int)) ⟨false, false⟩
        exampleSettings ⟨30⟩ exampleClock r ⟨0, 0, 0⟩
        [⟨1, quietClock, 5012511⟩, ⟨0, quietClock, 5050000⟩] (by decide) hr hret).2.2.2).trans
        hfps⟩

/-! ## update on an instance that is not active (C5) -/

/-- C5, evaluation of the code: after start at 50 frames per second and stop, the PLL
is inactive and params.framerate is 50; update called then, for a frame 12000
microseconds after the start time, is not rejected: it issues the frame-rate write
11520 / 256, sets params.framerate to 45 and returns the success code 0. The same
happens when the initialization error flag is set. -/
theorem update_not_rejected_when_inactive :
    (start ⟨false, false⟩ exampleSettings ⟨50⟩ exampleClock).map (fun r0 =>
        ((stop r0.pll r0.settings r0.params).pll,
         (stop r0.pll r0.settings r0.params).params.framerate,
         (update (fun n => (n : Int)) MMAL_SUCCESS (stop r0.pll r0.settings r0.params).pll
            ⟨0, 0, 0⟩ quietClock (stop r0.pll r0.settings r0.params).settings
            (stop r0.pll r0.settings r0.params).params 5012511).ops,
         (update (fun n => (n : Int)) MMAL_SUCCESS (stop r0.pll r0.settings r0.params).pll
            ⟨0, 0, 0⟩ quietClock (stop r0.pll r0.settings r0.params).settings
            (stop r0.pll r0.settings r0.params).params 5012511).params.framerate,
         (update (fun n => (n : Int)) MMAL_SUCCESS (stop r0.pll r0.settings r0.params).pll
            ⟨0, 0, 0⟩ quietClock (stop r0.pll r0.settings r0.params).settings
            (stop r0.pll r0.settings r0.params).params 5012511).ret)) =
      some (⟨false, false⟩, 50, [HwOp.frameRateSet 11520 256], 45, 0) ∧
    (update (fun n => (n : Int)) MMAL_SUCCESS ⟨true, false⟩ ⟨0, 0, 0⟩ quietClock
        (lockedSettings 50 0) ⟨50⟩ 12000).ops = [HwOp.frameRateSet 11520 256] ∧
    (update (fun n => (n : Int)) MMAL_SUCCESS ⟨true, false⟩ ⟨0, 0, 0⟩ quietClock
        (lockedSettings 50 0) ⟨50⟩ 12000).params.framerate = 45 ∧
    (update (fun n => (n : Int)) MMAL_SUCCESS ⟨true, false⟩ ⟨0, 0, 0⟩ quietClock
        (lockedSettings 50 0) ⟨50⟩ 12000).ret = 0 := by
  decide!

/-! ## The fold with a phase offset (C1, C3) -/

/-- C1, evaluation of the code: period 20000 microseconds, divider 1, phase offset 12000
microseconds, frame 19000 microseconds after the start time. The raw error is 31000, it
is folded once to 11000, which is more than half a period (10000). -/
theorem update_fold_exceeds_half_period :
    (update (fun n => (n : Int)) MMAL_SUCCESS ⟨false, true⟩ ⟨0, 0, 0⟩ quietClock
        (lockedSettings 50 12000) ⟨50⟩ 19000).phase.pll_fpsperiod = 20000 ∧
    (update (fun n => (n : Int)) MMAL_SUCCESS ⟨false, true⟩ ⟨0, 0, 0⟩ quietClock
        (lockedSettings 50 12000) ⟨50⟩ 19000).phase.rawdiff = 31000 ∧
    (update (fun n => (n : Int)) MMAL_SUCCESS ⟨false, true⟩ ⟨0, 0, 0⟩ quietClock
        (lockedSettings 50 12000) ⟨50⟩ 19000).phase.diff = 11000 ∧
    ¬ (((update (fun n => (n : Int)) MMAL_SUCCESS ⟨false, true⟩ ⟨0, 0, 0⟩ quietClock
        (lockedSettings 50 12000) ⟨50⟩ 19000).phase.diff : ℚ) ≤
      (update (fun n => (n : Int)) MMAL_SUCCESS ⟨false, true⟩ ⟨0, 0, 0⟩ quietClock
        (lockedSettings 50 12000) ⟨50⟩ 19000).phase.pll_fpsperiod / 2) := by
  decide!

/-- C3, evaluation of the code: with the inputs of the C1 evaluation (locked frequency
50 Hz) the normalised error is 11/20 and the new target is 56.875 Hz, above
1.125 * 50 = 56.25 Hz. -/
theorem update_excursion_exceeds_eighth :
    ((update (fun n => (n : Int)) MMAL_SUCCESS ⟨false, true⟩ ⟨0, 0, 0⟩ quietClock
        (lockedSettings 50 12000) ⟨50⟩ 19000).phase.diff : ℚ) /
      (update (fun n => (n : Int)) MMAL_SUCCESS ⟨false, true⟩ ⟨0, 0, 0⟩ quietClock
        (lockedSettings 50 12000) ⟨50⟩ 19000).phase.pll_fpsperiod = 11 / 20 ∧
    (update (fun n => (n : Int)) MMAL_SUCCESS ⟨false, true⟩ ⟨0, 0, 0⟩ quietClock
        (lockedSettings 50 12000) ⟨50⟩ 19000).phase.nframerate = 455 / 8 ∧
    ¬ ((update (fun n => (n : Int)) MMAL_SUCCESS ⟨false, true⟩ ⟨0, 0, 0⟩ quietClock
        (lockedSettings 50 12000) ⟨50⟩ 19000).phase.nframerate ≤ (1125 / 1000 : ℚ) * 50) ∧
    (update (fun n => (n : Int)) MMAL_SUCCESS ⟨false, true⟩ ⟨0, 0, 0⟩ quietClock
        (lockedSettings 50 12000) ⟨50⟩ 19000).ops = [HwOp.frameRateSet 14560 256] := by
  decide!

/-! ## Lines 128-158 inside the representable range (C2) -/

theorem offsetLoop_spec (clk : Nat → GpuSample) (max_iter max_diff : Nat) :
    ∀ (fuel iter0 : Nat), iter0 + fuel = max_iter →
      iter0 < (offsetLoop clk max_iter max_diff fuel iter0).1 ∧
      (offsetLoop clk max_iter max_diff fuel iter0).1 ≤ max_iter + 1 ∧
      (offsetLoop clk max_iter max_diff fuel iter0).2 =
        ((clk ((offsetLoop clk max_iter max_diff fuel iter0).1 - 1)).t_gpu % U64,
         timespec_us (clk ((offsetLoop clk max_iter max_diff fuel iter0).1 - 1)).cpu1,
         timespec_us (clk ((offsetLoop clk max_iter max_diff fuel iter0).1 - 1)).cpu2) ∧
      (∀ j, iter0 ≤ j → j + 1 < (offsetLoop clk max_iter max_diff fuel iter0).1 →
        max_diff < sampleSpan (clk j)) ∧
      ((offsetLoop clk max_iter max_diff fuel iter0).1 ≤ max_iter →
        sampleSpan (clk ((offsetLoop clk max_iter max_diff fuel iter0).1 - 1)) ≤ max_diff) := by
  intro fuel
  induction fuel with
  | zero =>
    intro iter0 h
    simp only [offsetLoop]
    refine ⟨by omega, by omega, by simp, ?_, ?_⟩
    · intro j h1 h2
      omega
    · intro h1
      omega
  | succ n ih =>
    intro iter0 h
    by_cases hc : subU64 (timespec_us (clk iter0).cpu2) (timespec_us (clk iter0).cpu1) > max_diff ∧
        iter0 + 1 ≤ max_iter
    · have hstep : offsetLoop clk max_iter max_diff (n + 1) iter0 =
          offsetLoop clk max_iter max_diff n (iter0 + 1) := by
        simp only [offsetLoop]
        rw [if_pos hc]
      rw [hstep]
      obtain ⟨h1, h2, h3, h4, h5⟩ := ih (iter0 + 1) (by omega)
      refine ⟨by omega, h2, h3, ?_, h5⟩
      intro j hj1 hj2
      by_cases hj : j = iter0
      · rw [hj]
        exact hc.1
      · exact h4 j (by omega) hj2
    · have hstep : offsetLoop clk max_iter max_diff (n + 1) iter0 =
          (iter0 + 1, (clk iter0).t_gpu % U64, timespec_us (clk iter0).cpu1,
            timespec_us (clk iter0).cpu2) := by
        simp only [offsetLoop]
        rw [if_neg hc]
      rw [hstep]
      refine ⟨by simp, by simp only; omega, by simp, ?_, ?_⟩
      · intro j h1 h2
        simp only at h2
        omega
      · intro h1
        simp only at h1 ⊢
        have h2 : ¬ subU64 (timespec_us (clk iter0).cpu2) (timespec_us (clk iter0).cpu1) >
            max_diff := fun h3 => hc ⟨h3, h1⟩
        simp only [Nat.add_sub_cancel, sampleSpan]
        omega

theorem getGPUoffset_iter (est : OffsetState) (clk : Nat → GpuSample) :
    (getGPUoffset est clk).iter = (offsetLoop clk (maxIter est) 150 (maxIter est) 0).1 := rfl

/-- The loop of getGPUoffset runs at least once and at most maxIter + 1 times, every
sample before the last one is wider than 150 microseconds, and when the loop ends with
iter <= maxIter the last sample is at most 150 microseconds wide. -/
theorem getGPUoffset_iter_bounds (est : OffsetState) (clk : Nat → GpuSample) :
    1 ≤ (getGPUoffset est clk).iter ∧ (getGPUoffset est clk).iter ≤ maxIter est + 1 ∧
    (∀ j, j + 1 < (getGPUoffset est clk).iter → 150 < sampleSpan (clk j)) ∧
    ((getGPUoffset est clk).iter ≤ maxIter est →
      sampleSpan (clk ((getGPUoffset est clk).iter - 1)) ≤ 150) := by
  rw [getGPUoffset_iter]
  obtain ⟨h1, h2, -, h4, h5⟩ := offsetLoop_spec clk (maxIter est) 150 (maxIter est) 0 (by omega)
  exact ⟨by omega, h2, fun j hj => h4 j (Nat.zero_le _) hj, h5⟩

/-- The loop stops at the first sample that is at most 150 microseconds wide, when that
sample is among the first maxIter + 1. -/
theorem getGPUoffset_iter_first_good (est : OffsetState) (clk : Nat → GpuSample) (j : Nat)
    (hj : j ≤ maxIter est) (hwide : ∀ i, i < j → 150 < sampleSpan (clk i))
    (hgood : sampleSpan (clk j) ≤ 150) :
    (getGPUoffset est clk).iter = j + 1 := by
  obtain ⟨h1, h2, h3, h4⟩ := getGPUoffset_iter_bounds est clk
  by_contra hne
  rcases Nat.lt_or_gt_of_ne hne with hlt | hgt
  · -- the loop ended earlier, on a sample before j
    have h5 := h4 (by omega)
    have h6 := hwide ((getGPUoffset est clk).iter - 1) (by omega)
    omega
  · have h5 := h3 j hgt
    omega

theorem wrapI64_bounds (z : Int) : -2 ^ 63 ≤ wrapI64 z ∧ wrapI64 z < 2 ^ 63 := by
  simp only [wrapI64, U64]
  omega

theorem wrapU64_lt (z : Int) : wrapU64 z < 2 ^ 64 := by
  simp only [wrapU64, U64]
  omega

/-- The three cases of lines 500-519: the new state when the stored offset is 0, when
it is not (the blend in binary32, truncated by the assignment), and when the sample is
not used; the returned values are the stored ones. -/
theorem getGPUoffset_state (est : OffsetState) (clk : Nat → GpuSample) :
    ((getGPUoffset est clk).iter < maxIter est → est.offset = 0 →
      (getGPUoffset est clk).state.offset =
        sampleOffset (clk ((getGPUoffset est clk).iter - 1)) ∧
      (getGPUoffset est clk).state.offset_interval =
        wrapU64 (wrapI64 (sampleSpan (clk ((getGPUoffset est clk).iter - 1))))) ∧
    ((getGPUoffset est clk).iter < maxIter est → est.offset ≠ 0 →
      (getGPUoffset est clk).state.offset =
        toI64 (blend32 (est.offset : ℚ)
          ((sampleOffset (clk ((getGPUoffset est clk).iter - 1)) : Int) : ℚ)) ∧
      (getGPUoffset est clk).state.offset_interval =
        toU64 (blend32 (est.offset_interval : ℚ)
          ((wrapI64 (sampleSpan (clk ((getGPUoffset est clk).iter - 1))) : Int) : ℚ))) ∧
    (¬ (getGPUoffset est clk).iter < maxIter est →
      (getGPUoffset est clk).state.offset = est.offset ∧
      (getGPUoffset est clk).state.offset_interval = est.offset_interval) ∧
    (getGPUoffset est clk).offset = (getGPUoffset est clk).state.offset ∧
    (getGPUoffset est clk).interval = (getGPUoffset est clk).state.offset_interval := by
  have hread := (offsetLoop_spec clk (maxIter est) 150 (maxIter est) 0 (by omega)).2.2.1
  have hiter := getGPUoffset_iter est clk
  rw [← hiter] at hread
  have hr1 : (offsetLoop clk (maxIter est) 150 (maxIter est) 0).2.1 =
      (clk ((getGPUoffset est clk).iter - 1)).t_gpu % U64 := by rw [hread]
  have hr2 : (offsetLoop clk (maxIter est) 150 (maxIter est) 0).2.2.1 =
      timespec_us (clk ((getGPUoffset est clk).iter - 1)).cpu1 := by rw [hread]
  have hr3 : (offsetLoop clk (maxIter est) 150 (maxIter est) 0).2.2.2 =
      timespec_us (clk ((getGPUoffset est clk).iter - 1)).cpu2 := by rw [hread]
  have hdef : (getGPUoffset est clk).state =
      { (if (offsetLoop clk (maxIter est) 150 (maxIter est) 0).1 < maxIter est then
          (if est.offset = 0 then
            { est with
              offset := wrapI64 (subU64 (offsetLoop clk (maxIter est) 150 (maxIter est) 0).2.2.1
                (offsetLoop clk (maxIter est) 150 (maxIter est) 0).2.1)
              offset_interval := wrapU64 (wrapI64
                (subU64 (offsetLoop clk (maxIter est) 150 (maxIter est) 0).2.2.2
                  (offsetLoop clk (maxIter est) 150 (maxIter est) 0).2.2.1)) }
          else
            { est with
              offset := toI64 (f32 (f32 (f32 (1 - f32 (1 / 10)) * f32 (est.offset : ℚ)) +
                f32 (f32 (1 / 10) *
                  f32 ((wrapI64 (subU64 (offsetLoop clk (maxIter est) 150 (maxIter est) 0).2.2.1
                    (offsetLoop clk (maxIter est) 150 (maxIter est) 0).2.1) : Int) : ℚ))))
              offset_interval := toU64 (f32 (f32 (f32 (1 - f32 (1 / 10)) *
                  f32 (est.offset_interval : ℚ)) +
                f32 (f32 (1 / 10) *
                  f32 ((wrapI64 (subU64 (offsetLoop clk (maxIter est) 150 (maxIter est) 0).2.2.2
                    (offsetLoop clk (maxIter est) 150 (maxIter est) 0).2.2.1) : Int) : ℚ)))) }
              : OffsetState)
         else est) with
        update := wrapI64 ((if (offsetLoop clk (maxIter est) 150 (maxIter est) 0).1 < maxIter est then
          (if est.offset = 0 then
            { est with
              offset := wrapI64 (subU64 (offsetLoop clk (maxIter est) 150 (maxIter est) 0).2.2.1
                (offsetLoop clk (maxIter est) 150 (maxIter est) 0).2.1)
              offset_interval := wrapU64 (wrapI64
                (subU64 (offsetLoop clk (maxIter est) 150 (maxIter est) 0).2.2.2
                  (offsetLoop clk (maxIter est) 150 (maxIter est) 0).2.2.1)) }
          else
            { est with
              offset := toI64 (f32 (f32 (f32 (1 - f32 (1 / 10)) * f32 (est.offset : ℚ)) +
                f32 (f32 (1 / 10) *
                  f32 ((wrapI64 (subU64 (offsetLoop clk (maxIter est) 150 (maxIter est) 0).2.2.1
                    (offsetLoop clk (maxIter est) 150 (maxIter est) 0).2.1) : Int) : ℚ))))
              offset_interval := toU64 (f32 (f32 (f32 (1 - f32 (1 / 10)) *
                  f32 (est.offset_interval : ℚ)) +
                f32 (f32 (1 / 10) *
                  f32 ((wrapI64 (subU64 (offsetLoop clk (maxIter est) 150 (maxIter est) 0).2.2.2
                    (offsetLoop clk (maxIter est) 150 (maxIter est) 0).2.2.1) : Int) : ℚ)))) }
              : OffsetState)
         else est).update + 1) } := rfl
  rw [← hiter, hr1, hr2, hr3] at hdef
  refine ⟨fun h1 h2 => ?_, fun h1 h2 => ?_, fun h1 => ?_, rfl, rfl⟩
  · rw [hdef]
    simp only [if_pos h1, if_pos h2, sampleOffset, sampleSpan]
    exact ⟨trivial, trivial⟩
  · rw [hdef]
    simp only [if_pos h1, if_neg h2, sampleOffset, sampleSpan, blend32]
    exact ⟨trivial, trivial⟩
  · rw [hdef]
    simp only [if_neg h1]
    exact ⟨trivial, trivial⟩

theorem truncQ_err (q : ℚ) : |((truncQ q : Int) : ℚ) - q| < 1 := by
  unfold truncQ
  split
  · have h1 := Int.floor_le q
    have h2 := Int.lt_floor_add_one q
    rw [abs_lt]
    constructor <;> linarith
  · have h1 := Int.le_ceil q
    have h2 := Int.ceil_lt_add_one q
    rw [abs_lt]
    constructor <;> linarith

theorem truncQ_between (q : ℚ) (a b : Int) (h1 : (a : ℚ) ≤ q) (h2 : q ≤ (b : ℚ)) :
    a ≤ truncQ q ∧ truncQ q ≤ b := by
  have hf : a ≤ ⌊q⌋ := Int.le_floor.mpr h1
  have hc : ⌈q⌉ ≤ b := Int.ceil_le.mpr h2
  have hfc : ⌊q⌋ ≤ ⌈q⌉ := Int.floor_le_ceil q
  unfold truncQ
  split <;> constructor <;> omega

/-! ## The blend inside the representable range -/

/-- For a stored offset and a candidate of magnitude at most 2^62 the assignment of line
509 does not wrap, and the stored result differs from the exact blend by less than 1
(the truncation) plus the rounding of the binary32 operations. -/
theorem blend_offset_near (o c : Int) (ho1 : -2 ^ 62 ≤ o) (ho2 : o ≤ 2 ^ 62)
    (hc1 : -2 ^ 62 ≤ c) (hc2 : c ≤ 2 ^ 62) :
    |((toI64 (blend32 (o : ℚ) (c : ℚ)) : Int) : ℚ) -
        ((1 - 1 / 10) * (o : ℚ) + 1 / 10 * (c : ℚ))| <
      1 + (|(o : ℚ)| + |(c : ℚ)|) / 2 ^ 22 := by
  have hb := abs_le.mp (blend_err_int o c)
  generalize blend32 (o : ℚ) (c : ℚ) = s at hb ⊢
  have o1 : (-2 ^ 62 : ℚ) ≤ (o : ℚ) := by exact_mod_cast ho1
  have o2 : (o : ℚ) ≤ 2 ^ 62 := by exact_mod_cast ho2
  have c1 : (-2 ^ 62 : ℚ) ≤ (c : ℚ) := by exact_mod_cast hc1
  have c2 : (c : ℚ) ≤ 2 ^ 62 := by exact_mod_cast hc2
  have ao : |(o : ℚ)| ≤ 2 ^ 62 := abs_le.mpr ⟨by linarith, o2⟩
  have ac : |(c : ℚ)| ≤ 2 ^ 62 := abs_le.mpr ⟨by linarith, c2⟩
  have hr1 : ((-(2 ^ 63 - 1) : Int) : ℚ) ≤ s := by
    push_cast
    linarith [hb.1]
  have hr2 : s ≤ ((2 ^ 63 - 1 : Int) : ℚ) := by
    push_cast
    linarith [hb.2]
  obtain ⟨t1, t2⟩ := truncQ_between s _ _ hr1 hr2
  have hw : toI64 s = truncQ s := by
    rw [toI64]
    exact wrapI64_of_range _ (by omega) (by omega)
  rw [hw]
  have ht := abs_lt.mp (truncQ_err s)
  rw [abs_lt]
  constructor <;> linarith [hb.1, hb.2, ht.1, ht.2]

/-- For a stored interval of at most 2^62 and a sample of width at most 150 the
assignment of line 510 does not wrap, the stored result differs from the exact blend by
less than 1 plus the rounding, and it stays at or below 150 when the stored interval
was. -/
theorem blend_interval_near (i span : Nat) (hi : i ≤ 2 ^ 62) (hs : span ≤ 150) :
    |((toU64 (blend32 (i : ℚ) ((wrapI64 (span : Int) : Int) : ℚ)) : Nat) : ℚ) -
        ((1 - 1 / 10) * (i : ℚ) + 1 / 10 * (span : ℚ))| <
      1 + ((i : ℚ) + (span : ℚ)) / 2 ^ 22 ∧
    (i ≤ 150 → toU64 (blend32 (i : ℚ) ((wrapI64 (span : Int) : Int) : ℚ)) ≤ 150) := by
  have hw : wrapI64 (span : Int) = (span : Int) := wrapI64_of_range _ (by omega) (by omega)
  rw [hw]
  have hb0 := blend_err_int (i : Int) (span : Int)
  simp only [Int.cast_natCast] at hb0 ⊢
  have i0 : (0 : ℚ) ≤ (i : ℚ) := Nat.cast_nonneg i
  have s0 : (0 : ℚ) ≤ (span : ℚ) := Nat.cast_nonneg span
  rw [abs_of_nonneg i0, abs_of_nonneg s0] at hb0
  have hb := abs_le.mp hb0
  generalize blend32 (i : ℚ) (span : ℚ) = s at hb ⊢
  have i2 : (i : ℚ) ≤ 2 ^ 62 := by exact_mod_cast hi
  have s2 : (span : ℚ) ≤ 150 := by exact_mod_cast hs
  have hs0 : 0 ≤ s := by linarith [hb.1]
  have hr2 : s ≤ ((2 ^ 63 : Int) : ℚ) := by
    push_cast
    linarith [hb.2]
  have t1 : 0 ≤ truncQ s := by
    rw [truncQ_of_nonneg s hs0]
    exact Int.floor_nonneg.mpr hs0
  have t2 := (truncQ_between s (-1) _ (by push_cast; linarith) hr2).2
  have hval := wrapU64_of_range (truncQ s) t1 (by omega)
  have hq : ((toU64 s : Nat) : ℚ) = ((truncQ s : Int) : ℚ) := by
    rw [toU64]
    exact_mod_cast hval
  have ht := abs_lt.mp (truncQ_err s)
  constructor
  · rw [hq, abs_lt]
    constructor <;> linarith [hb.1, hb.2, ht.1, ht.2]
  · intro h150
    have i3 : (i : ℚ) ≤ 150 := by exact_mod_cast h150
    have hr3 : s ≤ ((150 : Int) : ℚ) + 1 / 2 := by
      push_cast
      linarith [hb.2]
    have t3 : truncQ s < 151 := by
      rw [truncQ_of_nonneg s hs0]
      apply Int.floor_lt.mpr
      push_cast at hr3 ⊢
      linarith
    rw [toU64]
    omega

theorem wrapU64_wrapI64_small (n : Nat) (h : n ≤ 150) : wrapU64 (wrapI64 (n : Int)) = n := by
  rw [wrapI64_of_range _ (by omega) (by omega)]
  have := wrapU64_of_range (n : Int) (by omega) (by omega)
  exact_mod_cast this

theorem sampleOffset_bounds (s : GpuSample) :
    -2 ^ 63 ≤ sampleOffset s ∧ sampleOffset s < 2 ^ 63 :=
  wrapI64_bounds _

theorem noUpdate_offsetRun (pre : List (Nat → GpuSample)) :
    ∀ est : OffsetState, noUpdate pre est = true →
      (offsetRun pre est).offset = est.offset ∧
      (offsetRun pre est).offset_interval = est.offset_interval := by
  induction pre with
  | nil =>
    intro est _
    exact ⟨rfl, rfl⟩
  | cons clk rest ih =>
    intro est h
    simp only [noUpdate, Bool.and_eq_true, Bool.not_eq_true', decide_eq_false_iff_not] at h
    obtain ⟨h1, h2⟩ := h
    obtain ⟨-, -, hkeep, -, -⟩ := getGPUoffset_state est clk
    obtain ⟨k1, k2⟩ := hkeep h1
    obtain ⟨r1, r2⟩ := ih _ h2
    exact ⟨r1.trans k1, r2.trans k2⟩

/-! ## The update rule of the offset estimator (C11) -/

/-- C11, counterexample: a stored estimate of offset 3 and interval 3 and a sample of
candidate offset 3 and width 3. The exact blend 0.9 * 3 + 0.1 * 3 is 3 for both values;
the code, which evaluates the blend in binary32 (0.9f * 3 + 0.1f * 3 is just below 3)
and truncates, stores offset 2 and interval 2. -/
theorem getGPUoffset_blend_below_exact :
    (getGPUoffset ⟨3, 3, 1⟩ closeClock).iter = 1 ∧
    sampleOffset (closeClock 0) = 3 ∧ sampleSpan (closeClock 0) = 3 ∧
    (getGPUoffset ⟨3, 3, 1⟩ closeClock).state.offset = 2 ∧
    (getGPUoffset ⟨3, 3, 1⟩ closeClock).state.offset_interval = 2 ∧
    specBlend 3 3 3 3 = (3, 3) ∧
    ((getGPUoffset ⟨3, 3, 1⟩ closeClock).state.offset,
      ((getGPUoffset ⟨3, 3, 1⟩ closeClock).state.offset_interval : Int)) ≠
      specBlend 3 3 (sampleOffset (closeClock 0)) (sampleSpan (closeClock 0)) := by
  decide!

/-- Line 505 takes a stored offset of 0 for the absence of an estimate, where the comment
at line 482 speaks of the first time: a first call on a remote clock of zero offset
stores the estimate offset = 0, interval = 100. On the next call, with a sample of
candidate offset 10 and width 50, the code adopts the sample (offset 10, interval 50)
where the blend of the prior estimate gives offset 1 and interval 95. -/
theorem getGPUoffset_adopts_over_zero_estimate :
    (getGPUoffset ⟨0, 0, 0⟩ quietClock).state = ⟨0, 100, 1⟩ ∧
    (getGPUoffset ⟨0, 0, 0⟩ quietClock).iter = 1 ∧
    (getGPUoffset (getGPUoffset ⟨0, 0, 0⟩ quietClock).state shiftedClock).iter = 1 ∧
    sampleOffset (shiftedClock 0) = 10 ∧ sampleSpan (shiftedClock 0) = 50 ∧
    (getGPUoffset (getGPUoffset ⟨0, 0, 0⟩ quietClock).state shiftedClock).state.offset = 10 ∧
    (getGPUoffset (getGPUoffset ⟨0, 0, 0⟩ quietClock).state shiftedClock).state.offset_interval
      = 50 ∧
    specBlend 0 100 10 50 = (1, 95) ∧
    ((getGPUoffset (getGPUoffset ⟨0, 0, 0⟩ quietClock).state shiftedClock).state.offset,
      ((getGPUoffset (getGPUoffset ⟨0, 0, 0⟩ quietClock).state shiftedClock).state.offset_interval
        : Int)) ≠
      specBlend (getGPUoffset ⟨0, 0, 0⟩ quietClock).state.offset
        (getGPUoffset ⟨0, 0, 0⟩ quietClock).state.offset_interval
        (sampleOffset (shiftedClock 0)) (sampleSpan (shiftedClock 0)) := by
  decide!

/-- C11, amended: whenever getGPUoffset updates its estimate (the loop ended with
iter < max_iter) from its last sample (t1, t_remote, t2), that sample is at most 150
microseconds wide and: if no earlier call of the run from the initial state updated the
estimate (this is the first successful estimate) the new state is offset = t1 - t_remote
and interval = t2 - t1; if the stored offset is not 0 the new state is the blend
(1.0f - 0.1f) * stored + 0.1f * sample evaluated in binary32 and truncated toward zero,
which for magnitudes up to 2^62 differs from the exact 0.9 * stored + 0.1 * sample by
less than 1 + (|stored| + |sample|) / 2^22. The stored values are the ones returned. -/
theorem getGPUoffset_update_rule_binary32 (est : OffsetState) (clk : Nat → GpuSample)
    (hup : (getGPUoffset est clk).iter < maxIter est) :
    sampleSpan (clk ((getGPUoffset est clk).iter - 1)) ≤ 150 ∧
    ((∃ pre, noUpdate pre ⟨0, 0, 0⟩ = true ∧ est = offsetRun pre ⟨0, 0, 0⟩) →
      (getGPUoffset est clk).state.offset =
        sampleOffset (clk ((getGPUoffset est clk).iter - 1)) ∧
      (getGPUoffset est clk).state.offset_interval =
        sampleSpan (clk ((getGPUoffset est clk).iter - 1))) ∧
    (est.offset ≠ 0 →
      (getGPUoffset est clk).state.offset =
        toI64 (blend32 (est.offset : ℚ)
          (sampleOffset (clk ((getGPUoffset est clk).iter - 1)) : ℚ)) ∧
      (getGPUoffset est clk).state.offset_interval =
        toU64 (blend32 (est.offset_interval : ℚ)
          (sampleSpan (clk ((getGPUoffset est clk).iter - 1)) : ℚ))) ∧
    (est.offset ≠ 0 → -2 ^ 62 ≤ est.offset → est.offset ≤ 2 ^ 62 →
      -2 ^ 62 ≤ sampleOffset (clk ((getGPUoffset est clk).iter - 1)) →
      sampleOffset (clk ((getGPUoffset est clk).iter - 1)) ≤ 2 ^ 62 →
      est.offset_interval ≤ 2 ^ 62 →
      |((getGPUoffset est clk).state.offset : ℚ) -
          ((1 - 1 / 10) * (est.offset : ℚ) +
            1 / 10 * (sampleOffset (clk ((getGPUoffset est clk).iter - 1)) : ℚ))| <
        1 + (|(est.offset : ℚ)| +
          |(sampleOffset (clk ((getGPUoffset est clk).iter - 1)) : ℚ)|) / 2 ^ 22 ∧
      |((getGPUoffset est clk).state.offset_interval : ℚ) -
          ((1 - 1 / 10) * (est.offset_interval : ℚ) +
            1 / 10 * (sampleSpan (clk ((getGPUoffset est clk).iter - 1)) : ℚ))| <
        1 + ((est.offset_interval : ℚ) +
          (sampleSpan (clk ((getGPUoffset est clk).iter - 1)) : ℚ)) / 2 ^ 22) ∧
    (getGPUoffset est clk).offset = (getGPUoffset est clk).state.offset ∧
    (getGPUoffset est clk).interval = (getGPUoffset est clk).state.offset_interval := by
  obtain ⟨-, -, -, hgood⟩ := getGPUoffset_iter_bounds est clk
  have hspan := hgood (by omega)
  obtain ⟨hzero, hblend, -, hret1, hret2⟩ := getGPUoffset_state est clk
  have hw : wrapI64 (sampleSpan (clk ((getGPUoffset est clk).iter - 1)) : Int) =
      (sampleSpan (clk ((getGPUoffset est clk).iter - 1)) : Int) :=
    wrapI64_of_range _ (by omega) (by omega)
  refine ⟨hspan, fun hfirst => ?_, fun h0 => ?_, fun h0 ho1 ho2 hc1 hc2 hi => ?_, hret1, hret2⟩
  · obtain ⟨pre, hpre, hest⟩ := hfirst
    have h0 : est.offset = 0 := by
      rw [hest]
      exact (noUpdate_offsetRun pre _ hpre).1
    obtain ⟨h1, h2⟩ := hzero hup h0
    refine ⟨h1, ?_⟩
    rw [h2]
    exact wrapU64_wrapI64_small _ (by omega)
  · obtain ⟨h1, h2⟩ := hblend hup h0
    rw [hw] at h2
    simp only [Int.cast_natCast] at h2
    exact ⟨h1, h2⟩
  · obtain ⟨h1, h2⟩ := hblend hup h0
    have n1 := blend_offset_near est.offset
      (sampleOffset (clk ((getGPUoffset est clk).iter - 1))) ho1 ho2 hc1 hc2
    have n2 := (blend_interval_near est.offset_interval
      (sampleSpan (clk ((getGPUoffset est clk).iter - 1))) hi hspan).1
    rw [← h1] at n1
    rw [← h2] at n2
    exact ⟨n1, n2⟩

/-- Witness of C11: a stored offset of 1000 with interval 100 and a stream whose fourth
sample is accepted (candidate offset 1010, width 100): the new state is offset 1001 and
interval 100, within the stated distance of the exact blend (1001 and 100). And after a
first call in which no sample met the bound, the next call adopts its sample: offset 10
and interval 50. -/
theorem getGPUoffset_update_rule_binary32_witness :
    ((getGPUoffset ⟨1000, 100, 1⟩ (lateClock 3)).state.offset = 1001 ∧
     (getGPUoffset ⟨1000, 100, 1⟩ (lateClock 3)).state.offset_interval = 100 ∧
     sampleOffset (lateClock 3 ((getGPUoffset ⟨1000, 100, 1⟩ (lateClock 3)).iter - 1)) = 1010 ∧
     |((getGPUoffset ⟨1000, 100, 1⟩ (lateClock 3)).state.offset : ℚ) -
        ((1 - 1 / 10) * ((1000 : Int) : ℚ) +
          1 / 10 * (sampleOffset
            (lateClock 3 ((getGPUoffset ⟨1000, 100, 1⟩ (lateClock 3)).iter - 1)) : ℚ))| <
      1 + (|((1000 : Int) : ℚ)| +
        |(sampleOffset
          (lateClock 3 ((getGPUoffset ⟨1000, 100, 1⟩ (lateClock 3)).iter - 1)) : ℚ)|) / 2 ^ 22) ∧
    (noUpdate [lateClock 100] ⟨0, 0, 0⟩ = true ∧
     offsetRun [lateClock 100] ⟨0, 0, 0⟩ = ⟨0, 0, 1⟩ ∧
     sampleOffset (shiftedClock 0) = 10 ∧ sampleSpan (shiftedClock 0) = 50 ∧
     (getGPUoffset (offsetRun [lateClock 100] ⟨0, 0, 0⟩) shiftedClock).iter = 1 ∧
     (getGPUoffset (offsetRun [lateClock 100] ⟨0, 0, 0⟩) shiftedClock).state.offset =
        sampleOffset (shiftedClock
          ((getGPUoffset (offsetRun [lateClock 100] ⟨0, 0, 0⟩) shiftedClock).iter - 1)) ∧
     (getGPUoffset (offsetRun [lateClock 100] ⟨0, 0, 0⟩) shiftedClock).state.offset_interval =
        sampleSpan (shiftedClock
          ((getGPUoffset (offsetRun [lateClock 100] ⟨0, 0, 0⟩) shiftedClock).iter - 1))) :=
  ⟨⟨by decide!, by decide!, by decide!,
    ((getGPUoffset_update_rule_binary32 ⟨1000, 100, 1⟩ (lateClock 3) (by decide!)).2.2.2.1
      (by decide) (by decide) (by decide) (by decide!) (by decide!) (by decide)).1⟩,
   ⟨by decide!, by decide!, by decide!, by decide!, by decide!,
    (getGPUoffset_update_rule_binary32 (offsetRun [lateClock 100] ⟨0, 0, 0⟩) shiftedClock
      (by decide!)).2.1 ⟨[lateClock 100], by decide!, rfl⟩⟩⟩

/-! ## The counter tests of the sampling loop (C12, C15) -/

/-- C12, evaluation of the code: stored offset 1000 (cap 5), four samples of width 200
and then samples of width 100. The loop ends on the fifth sample, which meets the bound,
with iter = 5; since 5 < 5 fails the estimate is left as it was. With one wide sample
less the same sample is blended in (offset 1001). -/
theorem getGPUoffset_drops_sample_at_cap :
    maxIter ⟨1000, 100, 1⟩ = 5 ∧
    (getGPUoffset ⟨1000, 100, 1⟩ (lateClock 4)).iter = 5 ∧
    sampleSpan (lateClock 4 4) = 100 ∧
    (getGPUoffset ⟨1000, 100, 1⟩ (lateClock 4)).state.offset = 1000 ∧
    (getGPUoffset ⟨1000, 100, 1⟩ (lateClock 4)).state.offset_interval = 100 ∧
    (getGPUoffset ⟨1000, 100, 1⟩ (lateClock 5)).iter = 6 ∧
    sampleSpan (lateClock 5 5) = 100 ∧
    (getGPUoffset ⟨1000, 100, 1⟩ (lateClock 5)).state.offset = 1000 ∧
    (getGPUoffset ⟨1000, 100, 1⟩ (lateClock 3)).iter = 4 ∧
    (getGPUoffset ⟨1000, 100, 1⟩ (lateClock 3)).state.offset = 1001 := by
  decide!

/-- C15, evaluation of the code: when every sample is wider than 150 microseconds the
loop queries the remote clock 6 times with a stored offset of 1000 (cap 5) and 51 times
with no estimate stored (cap 50). -/
theorem getGPUoffset_queries_cap_plus_one :
    maxIter ⟨1000, 100, 1⟩ = 5 ∧
    (getGPUoffset ⟨1000, 100, 1⟩ (lateClock 100)).iter = 6 ∧
    maxIter ⟨0, 0, 0⟩ = 50 ∧
    (getGPUoffset ⟨0, 0, 0⟩ (lateClock 100)).iter = 51 := by
  decide!

/-! ## Identical candidate offsets (C13) -/

/-- One blend toward the candidate c: an estimate within |c| / 2^17 + 11 of c stays
within that distance, and an estimate farther away moves strictly closer. -/
theorem blend_contracts (o c : Int) (ho1 : -2 ^ 62 ≤ o) (ho2 : o ≤ 2 ^ 62)
    (hc1 : -2 ^ 62 ≤ c) (hc2 : c ≤ 2 ^ 62) :
    (|(o : ℚ) - (c : ℚ)| ≤ |(c : ℚ)| / 2 ^ 17 + 11 →
      |((toI64 (blend32 (o : ℚ) (c : ℚ)) : Int) : ℚ) - (c : ℚ)| ≤ |(c : ℚ)| / 2 ^ 17 + 11) ∧
    (|(c : ℚ)| / 2 ^ 17 + 11 < |(o : ℚ) - (c : ℚ)| →
      |((toI64 (blend32 (o : ℚ) (c : ℚ)) : Int) : ℚ) - (c : ℚ)| < |(o : ℚ) - (c : ℚ)|) := by
  have hn := abs_lt.mp (blend_offset_near o c ho1 ho2 hc1 hc2)
  generalize ((toI64 (blend32 (o : ℚ) (c : ℚ)) : Int) : ℚ) = n at hn ⊢
  have d1 := le_abs_self ((o : ℚ) - (c : ℚ))
  have d2 := neg_abs_le ((o : ℚ) - (c : ℚ))
  have d3 := abs_sub_abs_le_abs_sub (o : ℚ) (c : ℚ)
  have d4 := abs_nonneg (c : ℚ)
  have d5 := abs_nonneg ((o : ℚ) - (c : ℚ))
  constructor
  · intro h
    rw [abs_le]
    constructor <;> linarith [hn.1, hn.2]
  · intro h
    rw [abs_lt]
    constructor <;> linarith [hn.1, hn.2]

theorem getGPUoffset_candidate_step (est : OffsetState) (clk : Nat → GpuSample) (c : Int)
    (hc1 : -2 ^ 61 ≤ c) (hc2 : c ≤ 2 ^ 61)
    (hcand : ∀ i, sampleOffset (clk i) = c)
    (hup : (getGPUoffset est clk).iter < maxIter est)
    (ho1 : -2 ^ 62 ≤ est.offset) (ho2 : est.offset ≤ 2 ^ 62) :
    (est.offset = 0 → (getGPUoffset est clk).offset = c) ∧
    (est.offset ≠ 0 → |(est.offset : ℚ) - (c : ℚ)| ≤ |(c : ℚ)| / 2 ^ 17 + 11 →
      |((getGPUoffset est clk).offset : ℚ) - (c : ℚ)| ≤ |(c : ℚ)| / 2 ^ 17 + 11) ∧
    (est.offset ≠ 0 → |(c : ℚ)| / 2 ^ 17 + 11 < |(est.offset : ℚ) - (c : ℚ)| →
      |((getGPUoffset est clk).offset : ℚ) - (c : ℚ)| < |(est.offset : ℚ) - (c : ℚ)|) := by
  obtain ⟨hzero, hblend, -, hret, -⟩ := getGPUoffset_state est clk
  rw [hret]
  refine ⟨fun h0 => ?_, fun h0 hnear => ?_, fun h0 hfar => ?_⟩
  · rw [(hzero hup h0).1]
    exact hcand _
  · have h1 := (hblend hup h0).1
    rw [hcand] at h1
    rw [h1]
    exact (blend_contracts est.offset c ho1 ho2 (by omega) (by omega)).1 hnear
  · have h1 := (hblend hup h0).1
    rw [hcand] at h1
    rw [h1]
    exact (blend_contracts est.offset c ho1 ho2 (by omega) (by omega)).2 hfar

theorem near_in_range (o c : Int) (hc1 : -2 ^ 61 ≤ c) (hc2 : c ≤ 2 ^ 61)
    (h : |(o : ℚ) - (c : ℚ)| ≤ |(c : ℚ)| / 2 ^ 17 + 11) : -2 ^ 62 ≤ o ∧ o ≤ 2 ^ 62 := by
  have c1 : (-2 ^ 61 : ℚ) ≤ (c : ℚ) := by exact_mod_cast hc1
  have c2 : (c : ℚ) ≤ 2 ^ 61 := by exact_mod_cast hc2
  have ac : |(c : ℚ)| ≤ 2 ^ 61 := abs_le.mpr ⟨by linarith, c2⟩
  have hd := abs_le.mp h
  have o1 : ((-2 ^ 62 : Int) : ℚ) ≤ (o : ℚ) := by
    push_cast
    linarith [hd.1]
  have o2 : (o : ℚ) ≤ ((2 ^ 62 : Int) : ℚ) := by
    push_cast
    linarith [hd.2]
  exact ⟨by exact_mod_cast o1, by exact_mod_cast o2⟩

theorem offsetCalls_candidate_near (c : Int) (hc1 : -2 ^ 61 ≤ c) (hc2 : c ≤ 2 ^ 61)
    (clks : List (Nat → GpuSample)) (hcand : ∀ clk ∈ clks, ∀ i, sampleOffset (clk i) = c) :
    ∀ est : OffsetState,
      (est.offset = 0 ∨ |(est.offset : ℚ) - (c : ℚ)| ≤ |(c : ℚ)| / 2 ^ 17 + 11) →
      ∀ r ∈ offsetCalls clks est,
        r.offset = 0 ∨ |(r.offset : ℚ) - (c : ℚ)| ≤ |(c : ℚ)| / 2 ^ 17 + 11 := by
  induction clks with
  | nil =>
    intro est _ r hr
    simp [offsetCalls] at hr
  | cons clk rest ih =>
    intro est hest r hr
    have hret := (getGPUoffset_state est clk).2.2.2.1
    have hstep : (getGPUoffset est clk).offset = 0 ∨
        |((getGPUoffset est clk).offset : ℚ) - (c : ℚ)| ≤ |(c : ℚ)| / 2 ^ 17 + 11 := by
      by_cases hup : (getGPUoffset est clk).iter < maxIter est
      · by_cases h0 : est.offset = 0
        · have hz := (getGPUoffset_candidate_step est clk c hc1 hc2
            (hcand clk (List.mem_cons_self _ _)) hup (by omega) (by omega)).1 h0
          right
          rw [hz, sub_self, abs_zero]
          positivity
        · rcases hest with h | h
          · exact absurd h h0
          · obtain ⟨r1, r2⟩ := near_in_range est.offset c hc1 hc2 h
            right
            exact (getGPUoffset_candidate_step est clk c hc1 hc2
              (hcand clk (List.mem_cons_self _ _)) hup r1 r2).2.1 h0 h
      · have hk := ((getGPUoffset_state est clk).2.2.1 hup).1
        rw [hret, hk]
        exact hest
    simp only [offsetCalls, List.mem_cons] at hr
    rcases hr with hr | hr
    · rw [hr]
      exact hstep
    · rw [hret] at hstep
      exact ih (fun k hk => hcand k (List.mem_cons_of_mem _ hk)) _ hstep r hr

theorem offsetCalls_zero_candidate (clks : List (Nat → GpuSample))
    (hcand : ∀ clk ∈ clks, ∀ i, sampleOffset (clk i) = 0) :
    ∀ est : OffsetState, est.offset = 0 → ∀ r ∈ offsetCalls clks est, r.offset = 0 := by
  induction clks with
  | nil =>
    intro est _ r hr
    simp [offsetCalls] at hr
  | cons clk rest ih =>
    intro est hest r hr
    obtain ⟨hzero, -, hkeep, hret, -⟩ := getGPUoffset_state est clk
    have hstep : (getGPUoffset est clk).state.offset = 0 := by
      by_cases hup : (getGPUoffset est clk).iter < maxIter est
      · rw [(hzero hup hest).1]
        exact hcand clk (List.mem_cons_self _ _) _
      · rw [(hkeep hup).1]
        exact hest
    simp only [offsetCalls, List.mem_cons] at hr
    rcases hr with hr | hr
    · rw [hr, hret]
      exact hstep
    · exact ih (fun k hk => hcand k (List.mem_cons_of_mem _ hk)) _ hstep r hr

/-- C13, counterexample: three calls from the initial state on samples that all carry the
candidate offset 3 (each call uses its first sample). The estimates are 3, 2, 2: the
second call moves the estimate away from 3, and the sequence settles at 2. -/
theorem getGPUoffset_constant_candidate_drifts :
    sampleOffset (closeClock 0) = 3 ∧
    (offsetCalls [closeClock, closeClock, closeClock] ⟨0, 0, 0⟩).map
        (fun r => (r.iter, r.offset)) = [(1, 3), (1, 2), (1, 2)] ∧
    (getGPUoffset ⟨0, 0, 0⟩ closeClock).state.offset = 3 ∧
    ¬ (|(getGPUoffset (getGPUoffset ⟨0, 0, 0⟩ closeClock).state closeClock).state.offset - 3| ≤
        |(getGPUoffset ⟨0, 0, 0⟩ closeClock).state.offset - 3|) := by
  decide!

/-- C13, amended: for streams whose samples all carry the same candidate offset c with
|c| <= 2^61. A call that uses a sample adopts c when the stored offset is 0 (the first
estimate equals c); from a stored offset other than 0 (of magnitude up to 2^62) the
binary32 blend leaves the estimate within |c| / 2^17 + 11 microseconds of c when it was
within that distance, and moves it strictly closer to c when it was farther away. Over
any run of calls from the initial state the returned estimate is 0 (no sample used yet)
or within |c| / 2^17 + 11 of c. On a remote clock of zero offset (c = 0) the returned
estimate is 0 after every call. -/
theorem getGPUoffset_constant_candidate_near (c : Int) (hc1 : -2 ^ 61 ≤ c)
    (hc2 : c ≤ 2 ^ 61) :
    (∀ (est : OffsetState) (clk : Nat → GpuSample),
      (∀ i, sampleOffset (clk i) = c) →
      (getGPUoffset est clk).iter < maxIter est →
      -2 ^ 62 ≤ est.offset → est.offset ≤ 2 ^ 62 →
      (est.offset = 0 → (getGPUoffset est clk).offset = c) ∧
      (est.offset ≠ 0 → |(est.offset : ℚ) - (c : ℚ)| ≤ |(c : ℚ)| / 2 ^ 17 + 11 →
        |((getGPUoffset est clk).offset : ℚ) - (c : ℚ)| ≤ |(c : ℚ)| / 2 ^ 17 + 11) ∧
      (est.offset ≠ 0 → |(c : ℚ)| / 2 ^ 17 + 11 < |(est.offset : ℚ) - (c : ℚ)| →
        |((getGPUoffset est clk).offset : ℚ) - (c : ℚ)| < |(est.offset : ℚ) - (c : ℚ)|)) ∧
    (∀ (clks : List (Nat → GpuSample)),
      (∀ clk ∈ clks, ∀ i, sampleOffset (clk i) = c) →
      ∀ r ∈ offsetCalls clks ⟨0, 0, 0⟩,
        r.offset = 0 ∨ |(r.offset : ℚ) - (c : ℚ)| ≤ |(c : ℚ)| / 2 ^ 17 + 11) ∧
    (∀ (clks : List (Nat → GpuSample)),
      (∀ clk ∈ clks, ∀ i, sampleOffset (clk i) = 0) →
      ∀ r ∈ offsetCalls clks ⟨0, 0, 0⟩, r.offset = 0) := by
  refine ⟨fun est clk hcand hup ho1 ho2 => ?_, fun clks hcand => ?_, fun clks hcand => ?_⟩
  · exact getGPUoffset_candidate_step est clk c hc1 hc2 hcand hup ho1 ho2
  · exact offsetCalls_candidate_near c hc1 hc2 clks hcand ⟨0, 0, 0⟩ (Or.inl rfl)
  · exact offsetCalls_zero_candidate clks hcand ⟨0, 0, 0⟩ rfl

/-- Witness of C13: candidate offset 1010. A call from the estimate 1000 on a stream
whose fourth sample is the first narrow one stores 1001, within 1010 / 2^17 + 11 of 1010
as 1000 was; and the three estimates of a run from the initial state are within that
distance. -/
theorem getGPUoffset_constant_candidate_near_witness :
    (getGPUoffset ⟨1000, 100, 1⟩ (lateClock 3)).offset = 1001 ∧
    |(((getGPUoffset ⟨1000, 100, 1⟩ (lateClock 3)).offset : Int) : ℚ) - ((1010 : Int) : ℚ)| ≤
      |((1010 : Int) : ℚ)| / 2 ^ 17 + 11 ∧
    (∀ r ∈ offsetCalls [lateClock 2, lateClock 2, lateClock 2] ⟨0, 0, 0⟩,
      r.offset = 0 ∨ |(r.offset : ℚ) - ((1010 : Int) : ℚ)| ≤ |((1010 : Int) : ℚ)| / 2 ^ 17 + 11) :=
  ⟨by decide!,
   ((getGPUoffset_constant_candidate_near 1010 (by decide) (by decide)).1 ⟨1000, 100, 1⟩
      (lateClock 3)
      (by
        intro i
        unfold lateClock
        split <;> decide!)
      (by decide!) (by decide) (by decide)).2.1 (by decide) (by decide!),
   (getGPUoffset_constant_candidate_near 1010 (by decide) (by decide)).2.1
      [lateClock 2, lateClock 2, lateClock 2]
      (by
        intro clk hclk i
        have h : clk = lateClock 2 := by simpa using hclk
        rw [h]
        unfold lateClock
        split <;> decide!)⟩

/-! ## The accuracy interval never exceeds 150 microseconds (C18) -/

theorem getGPUoffset_interval_le (est : OffsetState) (clk : Nat → GpuSample)
    (h : est.offset_interval ≤ 150) :
    (getGPUoffset est clk).state.offset_interval ≤ 150 ∧
    (getGPUoffset est clk).interval ≤ 150 := by
  obtain ⟨hzero, hblend, hkeep, -, hret⟩ := getGPUoffset_state est clk
  rw [hret]
  suffices hs : (getGPUoffset est clk).state.offset_interval ≤ 150 from ⟨hs, hs⟩
  by_cases hup : (getGPUoffset est clk).iter < maxIter est
  · obtain ⟨-, -, -, hgood⟩ := getGPUoffset_iter_bounds est clk
    have hspan := hgood (by omega)
    by_cases h0 : est.offset = 0
    · rw [(hzero hup h0).2, wrapU64_wrapI64_small _ hspan]
      exact hspan
    · rw [(hblend hup h0).2]
      exact (blend_interval_near est.offset_interval
        (sampleSpan (clk ((getGPUoffset est clk).iter - 1))) (by omega) hspan).2 h
  · rw [(hkeep hup).2]
    exact h

/-- C18: starting from the initial state (offset 0, interval 0), after every call of
every sequence of getGPUoffset calls, over any clock readings, the stored and the
returned accuracy interval are at most 150 microseconds; a sample is used only when the
loop ended on it with a width of at most 150. -/
theorem offset_interval_never_exceeds_150 (clks : List (Nat → GpuSample)) :
    (∀ r ∈ offsetCalls clks ⟨0, 0, 0⟩, r.state.offset_interval ≤ 150 ∧ r.interval ≤ 150) ∧
    (∀ (est : OffsetState) (clk : Nat → GpuSample),
      (getGPUoffset est clk).iter < maxIter est →
      sampleSpan (clk ((getGPUoffset est clk).iter - 1)) ≤ 150) := by
  constructor
  · suffices h : ∀ (l : List (Nat → GpuSample)) (est : OffsetState),
        est.offset_interval ≤ 150 →
        ∀ r ∈ offsetCalls l est, r.state.offset_interval ≤ 150 ∧ r.interval ≤ 150 from
      h clks ⟨0, 0, 0⟩ (by decide)
    intro l
    induction l with
    | nil =>
      intro est _ r hr
      simp [offsetCalls] at hr
    | cons clk rest ih =>
      intro est hest r hr
      have hstep := getGPUoffset_interval_le est clk hest
      simp only [offsetCalls, List.mem_cons] at hr
      rcases hr with hr | hr
      · rw [hr]
        exact hstep
      · exact ih _ hstep.1 r hr
  · intro est clk hup
    exact (getGPUoffset_iter_bounds est clk).2.2.2 (by omega)

/-- With a prior estimate other than c the truncated blend can stop short of c: from the
estimate 1001 a sample of candidate offset 1010 gives 0.9 * 1001 + 0.1 * 1010 = 1001.9,
truncated to 1001 again. -/
theorem getGPUoffset_blend_stops_short :
    (getGPUoffset ⟨1001, 100, 2⟩ (lateClock 3)).iter = 4 ∧
    sampleOffset (lateClock 3 3) = 1010 ∧
    (getGPUoffset ⟨1001, 100, 2⟩ (lateClock 3)).state.offset = 1001 := by
  decide!

/-! ## The PWM set-up of start (C14, C16, C17) -/

theorem start_enabled_pwm (self : PLL) (settings : FLASHCAM_SETTINGS_T)
    (params : FLASHCAM_PARAMS_T) (clk : List (Timespec × Timespec)) (t1_us tdiff iter : Nat)
    (he : self._error = false) (ha : self._active = false)
    (hen : settings.pll_enabled ≠ 0) (hc : calibrate clk = some (t1_us, tdiff, iter)) :
    ∃ r, start self settings params clk = some r ∧ r.ret = 0 ∧
      r.settings.pll_pulsewidth = (pwmSetup settings params).pll_pulsewidth ∧
      r.settings.pll_startinterval = subU64 tdiff 111 ∧
      r.ops = resetGPIO ++ [HwOp.pinModePwmOutput PLL_PIN, HwOp.pwmSetModeMS] ++
        [HwOp.pwmSetRange (pwmSetup settings params).pwm_range,
         HwOp.pwmWrite PLL_PIN (pwmSetup settings params).pwm_pw] ++
        List.replicate iter (HwOp.pwmSetClock 2) := by
  have hen1 : (settings.pll_enabled = 0) = False := eq_false hen
  simp [start, pwmSetup, he, ha, hen1, hc]

/-- C14, evaluation of the code: getDefaultSettings stores enabled = 0, divider = 1,
offset = 0 and pulse width 0.5 / 30 = 1/60. With these defaults start at 30 Hz does
nothing (the PLL is disabled); with the PLL switched on it finds target_period = 100/3
milliseconds and dutycycle = (1/60) / (100/3) = 1/2000, not 1/2, and writes the
pulse-width register 160 for the range 320000. -/
theorem default_pulsewidth_duty_cycle :
    (getDefaultSettings ⟨0, 0, 0, 0, 0, 0, 0, 0, 0⟩).pll_enabled = 0 ∧
    (getDefaultSettings ⟨0, 0, 0, 0, 0, 0, 0, 0, 0⟩).pll_divider = 1 ∧
    (getDefaultSettings ⟨0, 0, 0, 0, 0, 0, 0, 0, 0⟩).pll_offset = 0 ∧
    (getDefaultSettings ⟨0, 0, 0, 0, 0, 0, 0, 0, 0⟩).pll_pulsewidth = (1 / 2 : ℚ) / 30 ∧
    (start ⟨false, false⟩ (getDefaultSettings ⟨0, 0, 0, 0, 0, 0, 0, 0, 0⟩) ⟨30⟩
        exampleClock).map (fun r => r.ops) = some [] ∧
    (pwmSetup (getDefaultSettings ⟨0, 0, 0, 0, 0, 0, 0, 0, 0⟩) ⟨30⟩).target_period = 100 / 3 ∧
    (pwmSetup (getDefaultSettings ⟨0, 0, 0, 0, 0, 0, 0, 0, 0⟩) ⟨30⟩).pll_pulsewidth = 1 / 60 ∧
    (pwmSetup (getDefaultSettings ⟨0, 0, 0, 0, 0, 0, 0, 0, 0⟩) ⟨30⟩).dutycycle = 1 / 2000 ∧
    (pwmSetup (getDefaultSettings ⟨0, 0, 0, 0, 0, 0, 0, 0, 0⟩) ⟨30⟩).dutycycle ≠ 1 / 2 ∧
    (pwmSetup exampleSettings ⟨30⟩).dutycycle = 1 / 2000 ∧
    (start ⟨false, false⟩ exampleSettings ⟨30⟩ exampleClock).map (fun r => r.ops) =
      some ( resetGPIO ++ [HwOp.pinModePwmOutput PLL_PIN, HwOp.pwmSetModeMS,
        HwOp.pwmSetRange 320000, HwOp.pwmWrite PLL_PIN 160,
        HwOp.pwmSetClock 2, HwOp.pwmSetClock 2]) := by
  decide!

/-- C19: when the calibration loop of an enabled start accepts the pair p (span s at
most 200, all earlier pairs wider), the stored start interval is (s - 111) mod 2^64:
it is at most 89 exactly when s >= 111, it is s - 111 in that case, and for s < 111 the
subtraction wraps to 2^64 - (111 - s). -/
theorem start_interval_mod_2_64 (self : PLL) (settings : FLASHCAM_SETTINGS_T)
    (params : FLASHCAM_PARAMS_T) (pre post : List (Timespec × Timespec))
    (p : Timespec × Timespec)
    (he : self._error = false) (ha : self._active = false)
    (hen : settings.pll_enabled ≠ 0)
    (hpre : ∀ q ∈ pre, 200 < pairSpan q) (hp : pairSpan p ≤ 200) :
    ∃ r, start self settings params (pre ++ p :: post) = some r ∧
      (r.settings.pll_startinterval : Int) = ((pairSpan p : Int) - 111) % 2 ^ 64 ∧
      (r.settings.pll_startinterval ≤ 89 ↔ 111 ≤ pairSpan p) ∧
      (111 ≤ pairSpan p → r.settings.pll_startinterval = pairSpan p - 111) ∧
      (pairSpan p < 111 → r.settings.pll_startinterval = 2 ^ 64 - (111 - pairSpan p)) := by
  have hc := calibrate_first_accepted pre post p hpre hp
  obtain ⟨r, h1, -, -, h4, -⟩ := start_enabled_pwm self settings params _ _ _ _ he ha hen hc
  have hsub : r.settings.pll_startinterval = (pairSpan p + 2 ^ 64 - 111) % 2 ^ 64 := by
    rw [h4]
    simp only [subU64, U64]
    omega
  refine ⟨r, h1, ?_, ?_, ?_, ?_⟩
  · rw [hsub]
    omega
  · rw [hsub]
    omega
  · intro h
    rw [hsub]
    omega
  · intro h
    rw [hsub]
    omega

/-- Witness of C19: a single clock pair of span 50 microseconds is accepted and the
stored start interval is 2^64 - 61. -/
theorem start_interval_mod_2_64_witness :
    ∃ r, start ⟨false, false⟩ exampleSettings ⟨30⟩ [(⟨5, 0⟩, ⟨5, 50000⟩)] = some r ∧
      r.settings.pll_startinterval = 2 ^ 64 - 61 ∧ ¬ (r.settings.pll_startinterval ≤ 89) :=
  match start_interval_mod_2_64 ⟨false, false⟩ exampleSettings ⟨30⟩ [] []
      (⟨5, 0⟩, ⟨5, 50000⟩) rfl rfl (by decide) (by simp) (by decide) with
  | ⟨r, h1, _, h3, _, h5⟩ =>
    ⟨r, h1, (h5 (by decide)).trans (by decide), fun h => absurd (h3.mp h) (by decide)⟩

end FlashCamPLL

